import Mathlib

/-!
Verification of the fiber-build-analyzer financial engine.

The two source modules with algorithmic content are embedded here:
  * `src/lib/irrModel.ts` — NPV, the Newton–Raphson IRR solver with
    bisection fallback, and the penetration-ramp calculator `computeIrr`;
  * `src/engine/bulkAnalyzer.ts` — the tiered ("waterfall") bulk-deal
    analyzer `analyzeBulkDeal` (the solver functions at the top of that
    file are a verbatim copy of the ones in `irrModel.ts`, so they are
    defined once here);
  * the earlier flat-fee variant of `analyzeBulkDeal` (v1), embedded in
    namespace `BulkAnalyzerV1`.

Numeric modelling: JavaScript `number` arithmetic is embedded as exact
rational arithmetic (`ℚ`).  Rational division is total with `x / 0 = 0`,
whereas JavaScript produces `±Infinity`/`NaN` there; every claim below is
settled at inputs where no such degenerate division is hit, except where a
comment says otherwise.  The JavaScript `Infinity` sentinel stored in the
tiered model's `paybackYears` field is modelled as `Option ℚ` with `none`
standing for the infinite sentinel.  Loop counters (`termYears`, month
indices, iteration budgets) are embedded as `ℕ`; the `for` loops of the
source, which run a number of iterations fixed in advance, become
fuel-indexed structural recursion with the source's iteration caps as the
initial fuel.
-/

namespace IrrModel

/-- `npv` from `irrModel.ts`: sum over all indices `i` of
`cashFlows[i] / (1 + rate)^i`.  The auxiliary function carries the running
index `i` of the source's `for` loop. -/
def npvAux (rate : ℚ) : List ℚ → ℕ → ℚ
  | [], _ => 0
  | cf :: rest, i => cf / (1 + rate) ^ i + npvAux rate rest (i + 1)

def npv (cashFlows : List ℚ) (rate : ℚ) : ℚ :=
  npvAux rate cashFlows 0

/-- `npvDerivative` from `irrModel.ts`: sum over all indices `i` of
`-(i * cashFlows[i]) / (1 + rate)^(i+1)`. -/
def npvDerivAux (rate : ℚ) : List ℚ → ℕ → ℚ
  | [], _ => 0
  | cf :: rest, i => -((i : ℚ) * cf) / (1 + rate) ^ (i + 1) + npvDerivAux rate rest (i + 1)

def npvDerivative (cashFlows : List ℚ) (rate : ℚ) : ℚ :=
  npvDerivAux rate cashFlows 0

/-- The `for` loop of `solveIrrBisection`: up to `fuel` iterations
(100 at the top-level call), carrying the mutable `low`/`high` bounds. -/
def bisectLoop (cashFlows : List ℚ) : ℕ → ℚ → ℚ → Option ℚ
  | 0, _, _ => none
  | fuel + 1, low, high =>
    let mid := (low + high) / 2
    let npvMid := npv cashFlows mid
    if |npvMid| < 1 / 1000000 then some mid
    else
      let low' := if npvMid > 0 then low else mid
      let high' := if npvMid > 0 then mid else high
      if |high' - low'| < 1 / 1000000 then some ((low' + high') / 2)
      else bisectLoop cashFlows fuel low' high'

/-- `solveIrrBisection` from `irrModel.ts` / `bulkAnalyzer.ts`. -/
def solveIrrBisection (cashFlows : List ℚ) : Option ℚ :=
  let npvLow := npv cashFlows (-99 / 100)
  let npvHigh := npv cashFlows 10
  if (npvLow > 0 ∧ npvHigh > 0) ∨ (npvLow < 0 ∧ npvHigh < 0) then none
  else if npvLow > 0 then none
  else bisectLoop cashFlows 100 (-99 / 100) 10

/-- The Newton–Raphson `for` loop of `solveIrr`, carrying the mutable
`rate`.  Exhausting the fuel (100 iterations at the top-level call) falls
through to bisection, as in the source. -/
def newtonLoop (cashFlows : List ℚ) : ℕ → ℚ → Option ℚ
  | 0, _ => solveIrrBisection cashFlows
  | fuel + 1, rate =>
    let npvValue := npv cashFlows rate
    let derivative := npvDerivative cashFlows rate
    if |derivative| < 1 / 10000000000 then solveIrrBisection cashFlows
    else
      let newRate := rate - npvValue / derivative
      if |newRate - rate| < 1 / 1000000 then some newRate
      else if |newRate| > 10 then solveIrrBisection cashFlows
      else newtonLoop cashFlows fuel newRate

/-- `solveIrr` from `irrModel.ts` / `bulkAnalyzer.ts`: sign pre-check at
rates `0` and `10`, then Newton–Raphson starting from `0.1` (or `-0.5`
when `npv` at rate `0` is negative).  In `ℚ` the `isNaN`/`isFinite`
divergence guards of the source reduce to the `|newRate| > 10` test,
since exact rationals are always finite. -/
def solveIrr (cashFlows : List ℚ) : Option ℚ :=
  let npvAtZero := npv cashFlows 0
  let npvAtHigh := npv cashFlows 10
  if (npvAtZero > 0 ∧ npvAtHigh > 0) ∨ (npvAtZero < 0 ∧ npvAtHigh < 0) then none
  else
    let rate : ℚ := if npvAtZero < 0 then -1 / 2 else 1 / 10
    newtonLoop cashFlows 100 rate

/-- One unfolding of the bisection loop, with the `let`s of the body
expanded; used to evaluate the solver on concrete series. -/
lemma bisectLoop_step (cashFlows : List ℚ) (fuel : ℕ) (low high : ℚ) :
    bisectLoop cashFlows (fuel + 1) low high =
      (if |npv cashFlows ((low + high) / 2)| < 1 / 1000000 then some ((low + high) / 2)
       else
        if |(if npv cashFlows ((low + high) / 2) > 0 then (low + high) / 2 else high) -
              (if npv cashFlows ((low + high) / 2) > 0 then low else (low + high) / 2)| <
            1 / 1000000 then
          some (((if npv cashFlows ((low + high) / 2) > 0 then low else (low + high) / 2) +
              (if npv cashFlows ((low + high) / 2) > 0 then (low + high) / 2 else high)) / 2)
        else
          bisectLoop cashFlows fuel
            (if npv cashFlows ((low + high) / 2) > 0 then low else (low + high) / 2)
            (if npv cashFlows ((low + high) / 2) > 0 then (low + high) / 2 else high)) := rfl

/-- One unfolding of the Newton–Raphson loop, with the `let`s expanded. -/
lemma newtonLoop_step (cashFlows : List ℚ) (fuel : ℕ) (rate : ℚ) :
    newtonLoop cashFlows (fuel + 1) rate =
      (if |npvDerivative cashFlows rate| < 1 / 10000000000 then solveIrrBisection cashFlows
       else
        if |(rate - npv cashFlows rate / npvDerivative cashFlows rate) - rate| < 1 / 1000000 then
          some (rate - npv cashFlows rate / npvDerivative cashFlows rate)
        else
          if |rate - npv cashFlows rate / npvDerivative cashFlows rate| > 10 then
            solveIrrBisection cashFlows
          else
            newtonLoop cashFlows fuel
              (rate - npv cashFlows rate / npvDerivative cashFlows rate)) := rfl

lemma solveIrr_eq (cashFlows : List ℚ) :
    solveIrr cashFlows =
      (if (npv cashFlows 0 > 0 ∧ npv cashFlows 10 > 0) ∨
          (npv cashFlows 0 < 0 ∧ npv cashFlows 10 < 0) then none
       else newtonLoop cashFlows 100 (if npv cashFlows 0 < 0 then -1 / 2 else 1 / 10)) := rfl

lemma solveIrrBisection_eq (cashFlows : List ℚ) :
    solveIrrBisection cashFlows =
      (if (npv cashFlows (-99 / 100) > 0 ∧ npv cashFlows 10 > 0) ∨
          (npv cashFlows (-99 / 100) < 0 ∧ npv cashFlows 10 < 0) then none
       else if npv cashFlows (-99 / 100) > 0 then none
       else bisectLoop cashFlows 100 (-99 / 100) 10) := rfl

lemma npvAux_nonneg {rate : ℚ} (hr : 0 < 1 + rate) :
    ∀ (l : List ℚ) (i : ℕ), (∀ x ∈ l, 0 ≤ x) → 0 ≤ npvAux rate l i
  | [], _, _ => le_refl 0
  | cf :: rest, i, h => by
    have hcf : 0 ≤ cf := h cf (List.mem_cons_self cf rest)
    have hrest := npvAux_nonneg hr rest (i + 1) (fun x hx => h x (List.mem_cons_of_mem _ hx))
    have hpow : (0 : ℚ) < (1 + rate) ^ i := pow_pos hr i
    have : 0 ≤ cf / (1 + rate) ^ i := div_nonneg hcf hpow.le
    simpa [npvAux] using add_nonneg this hrest

lemma npvAux_pos {rate : ℚ} (hr : 0 < 1 + rate) :
    ∀ (l : List ℚ) (i : ℕ), (∀ x ∈ l, 0 ≤ x) → (∃ x ∈ l, 0 < x) → 0 < npvAux rate l i
  | [], _, _, hex => absurd hex (by simp)
  | cf :: rest, i, h, hex => by
    have hcf : 0 ≤ cf := h cf (List.mem_cons_self cf rest)
    have hrest' : ∀ x ∈ rest, 0 ≤ x := fun x hx => h x (List.mem_cons_of_mem _ hx)
    have hpow : (0 : ℚ) < (1 + rate) ^ i := pow_pos hr i
    rcases hex with ⟨x, hx, hxpos⟩
    rcases List.mem_cons.mp hx with rfl | hxr
    · have h1 : 0 < x / (1 + rate) ^ i := div_pos hxpos hpow
      have h2 := npvAux_nonneg hr rest (i + 1) hrest'
      simpa [npvAux] using add_pos_of_pos_of_nonneg h1 h2
    · have h1 : 0 ≤ cf / (1 + rate) ^ i := div_nonneg hcf hpow.le
      have h2 := npvAux_pos hr rest (i + 1) hrest' ⟨x, hxr, hxpos⟩
      simpa [npvAux] using add_pos_of_nonneg_of_pos h1 h2

lemma npvAux_map_neg (rate : ℚ) :
    ∀ (l : List ℚ) (i : ℕ), npvAux rate (l.map (fun x => -x)) i = -npvAux rate l i
  | [], _ => by simp [npvAux]
  | cf :: rest, i => by
    simp only [List.map_cons, npvAux, npvAux_map_neg rate rest (i + 1), neg_div, neg_add]

lemma npvAux_zero (rate : ℚ) :
    ∀ (l : List ℚ) (i : ℕ), (∀ x ∈ l, x = 0) → npvAux rate l i = 0
  | [], _, _ => rfl
  | cf :: rest, i, h => by
    have hcf : cf = 0 := h cf (List.mem_cons_self cf rest)
    have := npvAux_zero rate rest (i + 1) (fun x hx => h x (List.mem_cons_of_mem _ hx))
    simp [npvAux, hcf, this]

lemma npvDerivAux_zero (rate : ℚ) :
    ∀ (l : List ℚ) (i : ℕ), (∀ x ∈ l, x = 0) → npvDerivAux rate l i = 0
  | [], _, _ => rfl
  | cf :: rest, i, h => by
    have hcf : cf = 0 := h cf (List.mem_cons_self cf rest)
    have := npvDerivAux_zero rate rest (i + 1) (fun x hx => h x (List.mem_cons_of_mem _ hx))
    simp [npvDerivAux, hcf, this]

lemma npv_pos_of_entries {l : List ℚ} {rate : ℚ} (hr : 0 < 1 + rate)
    (h1 : ∀ x ∈ l, 0 ≤ x) (h2 : ∃ x ∈ l, 0 < x) : 0 < npv l rate :=
  npvAux_pos hr l 0 h1 h2

lemma npv_neg_of_entries {l : List ℚ} {rate : ℚ} (hr : 0 < 1 + rate)
    (h1 : ∀ x ∈ l, x ≤ 0) (h2 : ∃ x ∈ l, x < 0) : npv l rate < 0 := by
  have hmap : l = (l.map (fun x => -x)).map (fun x => -x) := by
    simp [List.map_map, Function.comp]
  have hpos : 0 < npv (l.map (fun x => -x)) rate := by
    refine npv_pos_of_entries hr ?_ ?_
    · intro x hx
      rcases List.mem_map.mp hx with ⟨y, hy, rfl⟩
      exact neg_nonneg.mpr (h1 y hy)
    · rcases h2 with ⟨y, hy, hylt⟩
      exact ⟨-y, List.mem_map_of_mem _ hy, neg_pos.mpr hylt⟩
  have := npvAux_map_neg rate l 0
  have hnpv : npv (l.map (fun x => -x)) rate = -npv l rate := this
  linarith [hnpv ▸ hpos]

lemma npv_zero_entries {l : List ℚ} (rate : ℚ) (h : ∀ x ∈ l, x = 0) : npv l rate = 0 :=
  npvAux_zero rate l 0 h

lemma npvDerivative_zero_entries {l : List ℚ} (rate : ℚ) (h : ∀ x ∈ l, x = 0) :
    npvDerivative l rate = 0 :=
  npvDerivAux_zero rate l 0 h

/-- On an all-zero series the solver runs Newton once (zero derivative),
aborts to bisection, and the very first midpoint `(-0.99 + 10)/2 = 4.505`
already has `|NPV| = 0` below tolerance, so `4.505` is returned. -/
lemma solveIrr_of_all_zero {l : List ℚ} (h : ∀ x ∈ l, x = 0) :
    solveIrr l = some (901 / 200) := by
  have h0 : npv l 0 = 0 := npv_zero_entries 0 h
  have h10 : npv l 10 = 0 := npv_zero_entries 10 h
  have hlow : npv l (-99 / 100) = 0 := npv_zero_entries _ h
  have hmid : npv l (901 / 200) = 0 := npv_zero_entries _ h
  have hd : npvDerivative l (1 / 10) = 0 := npvDerivative_zero_entries _ h
  rw [solveIrr_eq, h0, h10, if_neg (by norm_num), if_neg (by norm_num),
    (by norm_num : (100 : ℕ) = 99 + 1), newtonLoop_step, if_pos (by rw [hd]; norm_num),
    solveIrrBisection_eq, hlow, h10, if_neg (by norm_num), if_neg (by norm_num),
    (by norm_num : (100 : ℕ) = 99 + 1), bisectLoop_step]
  rw [if_pos (by rw [(by norm_num : ((-99 / 100 : ℚ) + 10) / 2 = 901 / 200), hmid]; norm_num)]
  norm_num

/-- `IrrInputs` from `irrModel.ts`.  `horizonYears` is the year-loop bound
and is embedded as `ℕ`. -/
structure IrrInputs where
  costPerPassing : ℚ
  steadyStatePenetration : ℚ
  arpu : ℚ
  grossMargin : ℚ
  dropCostPerSub : ℚ
  churnRate : ℚ
  reinstallCostPerChurn : ℚ
  exitMultiple : ℚ
  horizonYears : ℕ
  rampYear1Factor : ℚ
  rampYear2Factor : ℚ

structure IrrResult where
  irr : Option ℚ
  cashFlows : List ℚ

/-- Body of the year loop of `computeIrr` (`irrModel.ts`, lines 159-188):
the cash flow assigned to `cashFlows[year]` for `1 ≤ year`. -/
def cfYear (inputs : IrrInputs) (year : ℕ) : ℚ :=
  let revPerSubYear := inputs.arpu * 12
  let ebitdaPerSubYear := revPerSubYear * inputs.grossMargin
  let penetration :=
    if year = 1 then inputs.steadyStatePenetration * inputs.rampYear1Factor
    else if year = 2 then inputs.steadyStatePenetration * inputs.rampYear2Factor
    else inputs.steadyStatePenetration
  let ebitdaYear := ebitdaPerSubYear * penetration
  let churnCostYear := inputs.churnRate * inputs.reinstallCostPerChurn * penetration
  let cf := ebitdaYear - churnCostYear
  if year = inputs.horizonYears then
    let ebitdaExit := ebitdaPerSubYear * inputs.steadyStatePenetration -
      inputs.churnRate * inputs.reinstallCostPerChurn * inputs.steadyStatePenetration
    cf + ebitdaExit * inputs.exitMultiple
  else cf

/-- `computeIrr` from `irrModel.ts`: `cashFlows[0] = -initialCapex`, then
one entry per year `1 .. horizonYears` from the year loop. -/
def computeIrr (inputs : IrrInputs) : IrrResult :=
  let initialCapex := inputs.costPerPassing + inputs.dropCostPerSub * inputs.steadyStatePenetration
  let cashFlows : List ℚ :=
    -initialCapex :: (List.range inputs.horizonYears).map (fun k => cfYear inputs (k + 1))
  { irr := solveIrr cashFlows, cashFlows := cashFlows }

end IrrModel

/-- C7: the penetration-ramp series built by `computeIrr`.  Year 0 is
`-(costPerPassing + dropCostPerSub × steadyStatePenetration)`; year 1 uses
penetration `steadyState × rampYear1Factor`, year 2 uses
`steadyState × rampYear2Factor`, years 3..horizon use full steady-state
penetration; the final year additionally carries the exit value
`(steady-state EBITDA per passing − steady-state churn reinstall cost per
passing) × exitMultiple`. -/
theorem claimC7_computeIrr_ramp (inputs : IrrModel.IrrInputs) :
    (IrrModel.computeIrr inputs).cashFlows.length = inputs.horizonYears + 1 ∧
    (IrrModel.computeIrr inputs).cashFlows.getD 0 0 =
      -(inputs.costPerPassing + inputs.dropCostPerSub * inputs.steadyStatePenetration) ∧
    ∀ y, 1 ≤ y → y ≤ inputs.horizonYears →
      (IrrModel.computeIrr inputs).cashFlows.getD y 0 =
        (inputs.arpu * 12 * inputs.grossMargin -
            inputs.churnRate * inputs.reinstallCostPerChurn) *
          (if y = 1 then inputs.steadyStatePenetration * inputs.rampYear1Factor
           else if y = 2 then inputs.steadyStatePenetration * inputs.rampYear2Factor
           else inputs.steadyStatePenetration) +
        (if y = inputs.horizonYears then
          (inputs.arpu * 12 * inputs.grossMargin * inputs.steadyStatePenetration -
              inputs.churnRate * inputs.reinstallCostPerChurn *
                inputs.steadyStatePenetration) * inputs.exitMultiple
         else 0) := by
  refine ⟨by simp [IrrModel.computeIrr], by simp [IrrModel.computeIrr], ?_⟩
  intro y h1 h2
  obtain ⟨k, rfl⟩ : ∃ k, y = k + 1 := ⟨y - 1, (Nat.succ_pred_eq_of_pos h1).symm⟩
  have hk : k < inputs.horizonYears := by omega
  have hget : (IrrModel.computeIrr inputs).cashFlows.getD (k + 1) 0 =
      IrrModel.cfYear inputs (k + 1) := by
    simp [IrrModel.computeIrr, List.getD_cons_succ, List.getD_eq_getElem?_getD,
      List.getElem?_map, List.getElem?_range, hk]
  rw [hget]
  simp only [IrrModel.cfYear]
  split_ifs <;> ring

/-- C7 witness: year 1 of the baseline scenario of the test suite
(`costPerPassing = 1000`, penetration 35%, ARPU 60, margin 80%, drop cost
500, churn 3%, reinstall 300, exit multiple 12, horizon 7, ramp factors
0.4/0.7) equals `(576 - 9) × 0.14 = 79.38`. -/
theorem claimC7_witness :
    (IrrModel.computeIrr
        ⟨1000, 35 / 100, 60, 8 / 10, 500, 3 / 100, 300, 12, 7, 4 / 10, 7 / 10⟩).cashFlows.getD
      1 0 = 3969 / 50 := by
  have h := (claimC7_computeIrr_ramp
      ⟨1000, 35 / 100, 60, 8 / 10, 500, 3 / 100, 300, 12, 7, 4 / 10, 7 / 10⟩).2.2 1
    (by norm_num) (by norm_num)
  rw [h]
  norm_num

/-- C1 (amended).  If every entry of the series is `≥ 0` with at least one
entry `> 0`, or every entry is `≤ 0` with at least one entry `< 0`, the
sign pre-check of `solveIrr` sees the same strict sign at rates `0` and
`10` and returns NONE.  On the all-zero series, however, `solveIrr` does
NOT return NONE: it falls through to bisection and returns the first
midpoint `4.505 = 901/200`. -/
theorem claimC1_solveIrr_signed_none (l : List ℚ) :
    ((((∀ x ∈ l, 0 ≤ x) ∧ ∃ x ∈ l, 0 < x) ∨ ((∀ x ∈ l, x ≤ 0) ∧ ∃ x ∈ l, x < 0)) →
      IrrModel.solveIrr l = none) ∧
    ((∀ x ∈ l, x = 0) → IrrModel.solveIrr l = some (901 / 200)) := by
  constructor
  · intro h
    rw [IrrModel.solveIrr_eq, if_pos]
    rcases h with ⟨h1, h2⟩ | ⟨h1, h2⟩
    · exact Or.inl ⟨IrrModel.npv_pos_of_entries (by norm_num) h1 h2,
        IrrModel.npv_pos_of_entries (by norm_num) h1 h2⟩
    · exact Or.inr ⟨IrrModel.npv_neg_of_entries (by norm_num) h1 h2,
        IrrModel.npv_neg_of_entries (by norm_num) h1 h2⟩
  · exact IrrModel.solveIrr_of_all_zero

/-- C1 witness: on the all-positive series `[1, 2]` the solver returns
NONE, by the amended theorem. -/
theorem claimC1_witness : IrrModel.solveIrr [1, 2] = none :=
  (claimC1_solveIrr_signed_none [1, 2]).1
    (Or.inl ⟨by norm_num, ⟨1, by norm_num⟩⟩)

/-- C1 counterexample: the claim demands NONE on the all-zero series, but
`solveIrr [0, 0]` returns the numeric rate `4.505`. -/
theorem claimC1_counterexample :
    IrrModel.solveIrr [0, 0] = some (901 / 200) ∧ IrrModel.solveIrr [0, 0] ≠ none := by
  have h : IrrModel.solveIrr [0, 0] = some (901 / 200) :=
    IrrModel.solveIrr_of_all_zero (by norm_num)
  exact ⟨h, by rw [h]; simp⟩

/-- C8: on the series `[-1000, 1100]` the solver returns a rate within
`1e-4` of 10%.  (Over exact rationals Newton converges to exactly `1/10`
on its first step, since NPV at 10% is exactly zero.) -/
theorem claimC8_solveIrr_example :
    ∃ r : ℚ, IrrModel.solveIrr [-1000, 1100] = some r ∧ |r - 1 / 10| ≤ 1 / 10000 := by
  refine ⟨1 / 10, ?_, by norm_num⟩
  rw [IrrModel.solveIrr_eq,
    if_neg (by norm_num [IrrModel.npv, IrrModel.npvAux]),
    if_neg (by norm_num [IrrModel.npv, IrrModel.npvAux]),
    (by norm_num : (100 : ℕ) = 99 + 1), IrrModel.newtonLoop_step,
    if_neg (by norm_num [IrrModel.npvDerivative, IrrModel.npvDerivAux, abs]),
    if_pos (by norm_num [IrrModel.npv, IrrModel.npvAux, IrrModel.npvDerivative,
      IrrModel.npvDerivAux])]
  norm_num [IrrModel.npv, IrrModel.npvAux, IrrModel.npvDerivative, IrrModel.npvDerivAux]

namespace BulkAnalyzer

/-! Embedding of `analyzeBulkDeal` from `src/engine/bulkAnalyzer.ts`
(the tiered-waterfall variant).  The unused `propertyName : string` field
of the input record is omitted.  The source computes yearly figures in a
nested `for year / for month` loop over `termYears × 12` months with a
running `cumulativeDaReceived` accumulator; months are numbered here by
the source's `globalMonth` counter (1-indexed), and `cumulativeDaReceived
input m` is the accumulator value after `m` months have been processed,
so a year's `daPaymentThisYear` / `revenueThisYear` is the sum of its 12
months' values.  The JavaScript `paybackYears` field can hold `Infinity`;
it is embedded as `Option ℚ` with `none` for the infinite sentinel. -/

inductive ConstructionType
  | greenfield
  | brownfield
deriving DecidableEq

inductive FundingSource
  | da
  | owner
  | internal
deriving DecidableEq

structure BulkDealInput where
  units : ℚ
  constructionType : ConstructionType
  termYears : ℕ
  bulkRatePerUnit : ℚ
  buildCostPerUnit : ℚ
  cpeCostPerUnit : ℚ
  installCostPerUnit : ℚ
  doorFeePerUnit : ℚ
  supportOpexPerUnitPerMonth : ℚ
  transportOpexPerMonth : ℚ
  daBulkFeePerUnitPerMonth : ℚ
  discountRate : ℚ
  leaseUpMonths : ℕ
  fundingSource : FundingSource
  ownerLoanInterestRate : ℚ

/-- JavaScript `x || 0`: the identity on `ℚ` (zero is the only falsy
rational). -/
def orZero (x : ℚ) : ℚ := if x = 0 then 0 else x

def capexPerUnit (input : BulkDealInput) : ℚ :=
  input.buildCostPerUnit + input.cpeCostPerUnit + input.installCostPerUnit +
    input.doorFeePerUnit

def totalCapex (input : BulkDealInput) : ℚ := input.units * capexPerUnit input

/-- `calculateMonthlyPayment` (PMT) from `bulkAnalyzer.ts`. -/
def calculateMonthlyPayment (principal annualRate : ℚ) (termYears : ℕ) : ℚ :=
  if principal = 0 ∨ termYears = 0 then 0
  else
    let monthlyRate := annualRate / 12
    let numPayments := termYears * 12
    if monthlyRate = 0 then principal / (numPayments : ℚ)
    else principal * (monthlyRate * (1 + monthlyRate) ^ numPayments) /
      ((1 + monthlyRate) ^ numPayments - 1)

/-- The source's `daRevenueShareEnabled` boolean: true exactly for
capital-provider (`'da'`) funding. -/
def daRevenueShareEnabled (input : BulkDealInput) : Prop :=
  input.fundingSource = FundingSource.da

instance (input : BulkDealInput) : Decidable (daRevenueShareEnabled input) := by
  unfold daRevenueShareEnabled; infer_instance

def rateDiscountPerUnit (input : BulkDealInput) : ℚ :=
  if input.fundingSource = FundingSource.owner then
    let monthlyLoanPayment :=
      calculateMonthlyPayment (totalCapex input) input.ownerLoanInterestRate input.termYears
    if input.units > 0 then monthlyLoanPayment / input.units else 0
  else 0

def adjustedBulkRatePerUnit (input : BulkDealInput) : ℚ :=
  if input.fundingSource = FundingSource.owner then
    max 0 (input.bulkRatePerUnit - rateDiscountPerUnit input)
  else input.bulkRatePerUnit

def grossRevenuePerMonth (input : BulkDealInput) : ℚ :=
  orZero input.units * adjustedBulkRatePerUnit input

def baseDaPaymentPerMonth (input : BulkDealInput) : ℚ :=
  if daRevenueShareEnabled input then input.units * input.daBulkFeePerUnitPerMonth else 0

def supportOpexPerMonth (input : BulkDealInput) : ℚ :=
  input.units * input.supportOpexPerUnitPerMonth

def transportOpexPerMonth (input : BulkDealInput) : ℚ := input.transportOpexPerMonth

def totalOpexPerMonth (input : BulkDealInput) : ℚ :=
  supportOpexPerMonth input + transportOpexPerMonth input

def daInvestment (input : BulkDealInput) : ℚ :=
  if daRevenueShareEnabled input then totalCapex input else 0

def moic2x (input : BulkDealInput) : ℚ := daInvestment input * 2

def moic2_5x (input : BulkDealInput) : ℚ := daInvestment input * (5 / 2)

def moic3x (input : BulkDealInput) : ℚ := daInvestment input * 3

/-- Lease-up applies only to greenfield construction
(`input.leaseUpMonths || 0` is the identity on `ℕ`). -/
def leaseUpMonthsEff (input : BulkDealInput) : ℕ :=
  if input.constructionType = ConstructionType.greenfield then input.leaseUpMonths else 0

/-- The waterfall payment-rate chain checked each month against the
cumulative receipts, exactly as both month loops of the source write it:
`>= 3.0x → 0`, else `>= 2.5x → 0.25`, else `>= 2.0x → 0.5`, else `1`. -/
def waterfallRate (cum t2 t25 t3 : ℚ) : ℚ :=
  if cum ≥ t3 then 0
  else if cum ≥ t25 then 1 / 4
  else if cum ≥ t2 then 1 / 2
  else 1

def daPaymentRateAt (input : BulkDealInput) (cum : ℚ) : ℚ :=
  if daRevenueShareEnabled input then
    waterfallRate cum (moic2x input) (moic2_5x input) (moic3x input)
  else 0

/-- `cumulativeDaReceived` after `m` simulated months: the month loop
computes the rate from the cumulative as of the start of the month, then
adds the month's payment. -/
def cumulativeDaReceived (input : BulkDealInput) : ℕ → ℚ
  | 0 => 0
  | m + 1 =>
    cumulativeDaReceived input m +
      baseDaPaymentPerMonth input * daPaymentRateAt input (cumulativeDaReceived input m)

/-- `daPaymentThisMonth` of global month `m` (1-indexed). -/
def daPaymentMonth (input : BulkDealInput) (m : ℕ) : ℚ :=
  baseDaPaymentPerMonth input * daPaymentRateAt input (cumulativeDaReceived input (m - 1))

def leaseUpMultiplier (input : BulkDealInput) (m : ℕ) : ℚ :=
  if 0 < leaseUpMonthsEff input ∧ m ≤ leaseUpMonthsEff input then
    (m : ℚ) / (leaseUpMonthsEff input : ℚ)
  else 1

def revenueMonth (input : BulkDealInput) (m : ℕ) : ℚ :=
  input.units * adjustedBulkRatePerUnit input * leaseUpMultiplier input m

/-- `daPaymentThisYear` of year `y` (1-indexed): the sum over the year's
12 global months `12(y-1)+1 .. 12y`. -/
def daPaymentYear (input : BulkDealInput) (y : ℕ) : ℚ :=
  ((List.range 12).map (fun j => daPaymentMonth input (12 * (y - 1) + j + 1))).sum

def revenueYear (input : BulkDealInput) (y : ℕ) : ℚ :=
  ((List.range 12).map (fun j => revenueMonth input (12 * (y - 1) + j + 1))).sum

def cashFlowsDA (input : BulkDealInput) : List ℚ :=
  -daInvestment input :: (List.range input.termYears).map (fun k => daPaymentYear input (k + 1))

def cashFlowsSprocket (input : BulkDealInput) : List ℚ :=
  -totalCapex input :: (List.range input.termYears).map (fun k =>
    revenueYear input (k + 1) - daPaymentYear input (k + 1) - totalOpexPerMonth input * 12)

def totalDaPayments (input : BulkDealInput) : ℚ := ((cashFlowsDA input).drop 1).sum

def averageDaPaymentPerMonth (input : BulkDealInput) : ℚ :=
  totalDaPayments input / ((input.termYears * 12 : ℕ) : ℚ)

def totalSprocketCashFlow (input : BulkDealInput) : ℚ :=
  ((cashFlowsSprocket input).drop 1).sum

def averageNetCashFlowPerYear (input : BulkDealInput) : ℚ :=
  totalSprocketCashFlow input / (input.termYears : ℚ)

def averageNetCashFlowPerMonth (input : BulkDealInput) : ℚ :=
  averageNetCashFlowPerYear input / 12

/-- `paybackYears` with its guard; `none` is the JS `Infinity` sentinel. -/
def paybackYears (input : BulkDealInput) : Option ℚ :=
  if averageNetCashFlowPerYear input > 0 then
    some (totalCapex input / averageNetCashFlowPerYear input)
  else none

def ocfYield (input : BulkDealInput) : ℚ :=
  if totalCapex input > 0 then averageNetCashFlowPerYear input / totalCapex input else 0

/-- The milestone-tracking second walk of the source, flattened over the
remaining months.  Each month recomputes the rate from the cumulative as
of the start of the month, adds the payment, then records each threshold
the new cumulative has reached (set-once, in the order 2.0x, 2.5x, 3.0x);
the walk stops as soon as the 3.0x milestone is set (the source's nested
`break`s), which can discard no later first crossings because the 2.0x and
2.5x checks of that same month have already run. -/
def milestoneScan (base t2 t25 t3 : ℚ) :
    ℕ → ℕ → ℚ → Option ℕ → Option ℕ → Option ℕ → Option ℕ × Option ℕ × Option ℕ
  | 0, _, _, m2, m25, m3 => (m2, m25, m3)
  | monthsLeft + 1, gm, cum, m2, m25, m3 =>
    let gm' := gm + 1
    let cum' := cum + base * waterfallRate cum t2 t25 t3
    let m2' := if m2 = none ∧ cum' ≥ t2 then some gm' else m2
    let m25' := if m25 = none ∧ cum' ≥ t25 then some gm' else m25
    let m3' := if m3 = none ∧ cum' ≥ t3 then some gm' else m3
    if m3'.isSome then (m2', m25', m3')
    else milestoneScan base t2 t25 t3 monthsLeft gm' cum' m2' m25' m3'

def daWaterfallMilestones (input : BulkDealInput) : Option ℕ × Option ℕ × Option ℕ :=
  if daRevenueShareEnabled input then
    milestoneScan (baseDaPaymentPerMonth input) (moic2x input) (moic2_5x input)
      (moic3x input) (12 * input.termYears) 0 0 none none none
  else (none, none, none)

structure YearlyCashFlow where
  year : ℕ
  providerCashFlow : ℚ
  ownerCashFlow : ℚ
  daPayment : ℚ

/-- Year-by-year rows for PDF/analysis: `ownerCashFlow` is computed from
`providerCF + daPayment` (`cashFlows[...] || 0` is the identity here
since `year ≤ termYears` is always in range). -/
def yearlyCashFlows (input : BulkDealInput) : List YearlyCashFlow :=
  (List.range input.termYears).map (fun k =>
    { year := k + 1
      providerCashFlow := (cashFlowsSprocket input).getD (k + 1) 0
      ownerCashFlow :=
        (cashFlowsSprocket input).getD (k + 1) 0 + (cashFlowsDA input).getD (k + 1) 0
      daPayment := (cashFlowsDA input).getD (k + 1) 0 })

structure DaWaterfall where
  moic2xMonth : Option ℕ
  moic2_5xMonth : Option ℕ
  moic3xMonth : Option ℕ
  moic2xAmount : ℚ
  moic2_5xAmount : ℚ
  moic3xAmount : ℚ

structure BulkDealResult where
  capexPerUnit : ℚ
  totalCapex : ℚ
  grossRevenuePerMonth : ℚ
  daPaymentPerMonth : ℚ
  daPaymentInitial : ℚ
  supportOpexPerMonth : ℚ
  transportOpexPerMonth : ℚ
  totalOpexPerMonth : ℚ
  netCashFlowPerMonth : ℚ
  netCashFlowPerYear : ℚ
  paybackYears : Option ℚ
  ocfYield : ℚ
  irr : Option ℚ
  sprocketIrr : Option ℚ
  yearlyCashFlows : List YearlyCashFlow
  daWaterfall : DaWaterfall

def analyzeBulkDeal (input : BulkDealInput) : BulkDealResult :=
  { capexPerUnit := capexPerUnit input
    totalCapex := totalCapex input
    grossRevenuePerMonth := grossRevenuePerMonth input
    daPaymentPerMonth := averageDaPaymentPerMonth input
    daPaymentInitial := baseDaPaymentPerMonth input
    supportOpexPerMonth := supportOpexPerMonth input
    transportOpexPerMonth := transportOpexPerMonth input
    totalOpexPerMonth := totalOpexPerMonth input
    netCashFlowPerMonth := averageNetCashFlowPerMonth input
    netCashFlowPerYear := averageNetCashFlowPerYear input
    paybackYears := paybackYears input
    ocfYield := ocfYield input
    irr := IrrModel.solveIrr (cashFlowsDA input)
    sprocketIrr := IrrModel.solveIrr (cashFlowsSprocket input)
    yearlyCashFlows := yearlyCashFlows input
    daWaterfall :=
      { moic2xMonth := (daWaterfallMilestones input).1
        moic2_5xMonth := (daWaterfallMilestones input).2.1
        moic3xMonth := (daWaterfallMilestones input).2.2
        moic2xAmount := moic2x input
        moic2_5xAmount := moic2_5x input
        moic3xAmount := moic3x input } }

end BulkAnalyzer

namespace BulkAnalyzerV1

/-! Embedding of the earlier flat-fee `analyzeBulkDeal` variant
(`src/unnamed/part_001`): flat DA payment, no waterfall, no lease-up,
and no guards on the payback/yield divisions.  The IRR year loops push
`termYears` copies of the constant yearly figure, i.e. `List.replicate`. -/

structure BulkDealInput where
  units : ℚ
  termYears : ℕ
  bulkRatePerUnit : ℚ
  buildCostPerUnit : ℚ
  cpeCostPerUnit : ℚ
  installCostPerUnit : ℚ
  doorFeePerUnit : ℚ
  supportOpexPerUnitPerMonth : ℚ
  transportOpexPerMonth : ℚ
  daBulkFeePerUnitPerMonth : ℚ
  discountRate : ℚ

structure BulkDealResult where
  capexPerUnit : ℚ
  totalCapex : ℚ
  grossRevenuePerMonth : ℚ
  daPaymentPerMonth : ℚ
  supportOpexPerMonth : ℚ
  transportOpexPerMonth : ℚ
  totalOpexPerMonth : ℚ
  netCashFlowPerMonth : ℚ
  netCashFlowPerYear : ℚ
  paybackYears : ℚ
  ocfYield : ℚ
  irr : Option ℚ
  irrWithoutDA : Option ℚ

/-- The flat (v1) `analyzeBulkDeal`.  `paybackYears` and `ocfYield` are
the raw quotients of the source, with no sign or zero guards; in `ℚ` a
zero divisor yields `0` where JavaScript would produce `±Infinity`/`NaN`
(no claim is settled at such an input). -/
def analyzeBulkDeal (input : BulkDealInput) : BulkDealResult :=
  let capexPerUnit := input.buildCostPerUnit + input.cpeCostPerUnit +
    input.installCostPerUnit + input.doorFeePerUnit
  let totalCapex := input.units * capexPerUnit
  let grossRevenuePerMonth := input.units * input.bulkRatePerUnit
  let daPaymentPerMonth := input.units * input.daBulkFeePerUnitPerMonth
  let supportOpexPerMonth := input.units * input.supportOpexPerUnitPerMonth
  let transportOpexPerMonth := input.transportOpexPerMonth
  let totalOpexPerMonth := supportOpexPerMonth + transportOpexPerMonth
  let netCashFlowPerMonth := grossRevenuePerMonth - daPaymentPerMonth - totalOpexPerMonth
  let netCashFlowPerYear := netCashFlowPerMonth * 12
  let paybackYears := totalCapex / netCashFlowPerYear
  let ocfYield := netCashFlowPerYear / totalCapex
  let cashFlows : List ℚ := -totalCapex :: List.replicate input.termYears netCashFlowPerYear
  let netCashFlowPerMonthWithoutDA := grossRevenuePerMonth - totalOpexPerMonth
  let netCashFlowPerYearWithoutDA := netCashFlowPerMonthWithoutDA * 12
  let cashFlowsWithoutDA : List ℚ :=
    -totalCapex :: List.replicate input.termYears netCashFlowPerYearWithoutDA
  { capexPerUnit := capexPerUnit
    totalCapex := totalCapex
    grossRevenuePerMonth := grossRevenuePerMonth
    daPaymentPerMonth := daPaymentPerMonth
    supportOpexPerMonth := supportOpexPerMonth
    transportOpexPerMonth := transportOpexPerMonth
    totalOpexPerMonth := totalOpexPerMonth
    netCashFlowPerMonth := netCashFlowPerMonth
    netCashFlowPerYear := netCashFlowPerYear
    paybackYears := paybackYears
    ocfYield := ocfYield
    irr := IrrModel.solveIrr cashFlows
    irrWithoutDA := IrrModel.solveIrr cashFlowsWithoutDA }

end BulkAnalyzerV1

namespace BulkAnalyzer

lemma orZero_eq (x : ℚ) : orZero x = x := by
  unfold orZero
  split_ifs with h
  · exact h.symm
  · rfl

lemma not_enabled_of_owner {input : BulkDealInput}
    (h : input.fundingSource = FundingSource.owner) : ¬daRevenueShareEnabled input := by
  simp [daRevenueShareEnabled, h]

lemma not_enabled_of_internal {input : BulkDealInput}
    (h : input.fundingSource = FundingSource.internal) : ¬daRevenueShareEnabled input := by
  simp [daRevenueShareEnabled, h]

lemma baseDaPaymentPerMonth_of_not_enabled {input : BulkDealInput}
    (h : ¬daRevenueShareEnabled input) : baseDaPaymentPerMonth input = 0 := by
  simp [baseDaPaymentPerMonth, h]

lemma cumulativeDaReceived_of_base_zero {input : BulkDealInput}
    (h : baseDaPaymentPerMonth input = 0) : ∀ m, cumulativeDaReceived input m = 0
  | 0 => rfl
  | m + 1 => by
    simp [cumulativeDaReceived, cumulativeDaReceived_of_base_zero h m, h]

lemma daPaymentMonth_of_base_zero {input : BulkDealInput}
    (h : baseDaPaymentPerMonth input = 0) (m : ℕ) : daPaymentMonth input m = 0 := by
  simp [daPaymentMonth, h]

lemma daPaymentYear_of_base_zero {input : BulkDealInput}
    (h : baseDaPaymentPerMonth input = 0) (y : ℕ) : daPaymentYear input y = 0 := by
  simp [daPaymentYear, daPaymentMonth_of_base_zero h]

lemma daInvestment_of_not_enabled {input : BulkDealInput}
    (h : ¬daRevenueShareEnabled input) : daInvestment input = 0 := by
  simp [daInvestment, h]

lemma cashFlowsDA_of_not_enabled {input : BulkDealInput}
    (h : ¬daRevenueShareEnabled input) :
    cashFlowsDA input = List.replicate (input.termYears + 1) 0 := by
  have hbase := baseDaPaymentPerMonth_of_not_enabled h
  unfold cashFlowsDA
  rw [daInvestment_of_not_enabled h, List.replicate_succ]
  congr 1
  apply List.eq_replicate_iff.mpr
  refine ⟨by simp, fun b hb => ?_⟩
  rcases List.mem_map.mp hb with ⟨k, _, rfl⟩
  exact daPaymentYear_of_base_zero hbase (k + 1)

/-- Element `k+1` of a cons-plus-mapped-range cash-flow list. -/
lemma getD_cons_map_range {a : ℚ} {f : ℕ → ℚ} {n k : ℕ} (hk : k < n) :
    ((a :: (List.range n).map f)).getD (k + 1) 0 = f k := by
  simp [List.getD_cons_succ, List.getD_eq_getElem?_getD, List.getElem?_map,
    List.getElem?_range, hk]

end BulkAnalyzer

/-- C9: in the tiered model with `'owner'` or `'internal'` funding the
capital-provider series handed to the solver is all zeros (the DA invests
nothing and every yearly DA payment is zero), and the `irr` field is the
first bisection midpoint `(-0.99 + 10)/2 = 4.505`, not NONE. -/
theorem claimC9_disabled_da_irr (input : BulkAnalyzer.BulkDealInput)
    (h : input.fundingSource = BulkAnalyzer.FundingSource.owner ∨
      input.fundingSource = BulkAnalyzer.FundingSource.internal)
    (hT : 1 ≤ input.termYears) :
    BulkAnalyzer.daInvestment input = 0 ∧
    BulkAnalyzer.cashFlowsDA input = List.replicate (input.termYears + 1) 0 ∧
    (BulkAnalyzer.analyzeBulkDeal input).irr = some (901 / 200) := by
  have hne : ¬BulkAnalyzer.daRevenueShareEnabled input := by
    rcases h with h | h
    · exact BulkAnalyzer.not_enabled_of_owner h
    · exact BulkAnalyzer.not_enabled_of_internal h
  have hcf := BulkAnalyzer.cashFlowsDA_of_not_enabled hne
  refine ⟨BulkAnalyzer.daInvestment_of_not_enabled hne, hcf, ?_⟩
  show IrrModel.solveIrr (BulkAnalyzer.cashFlowsDA input) = some (901 / 200)
  rw [hcf]
  exact IrrModel.solveIrr_of_all_zero (fun x hx => List.eq_of_mem_replicate hx)

/-- C9 witness: a concrete owner-funded 5-year deal. -/
theorem claimC9_witness :
    (BulkAnalyzer.analyzeBulkDeal
        ⟨100, BulkAnalyzer.ConstructionType.brownfield, 5, 65, 350, 230, 50, 0, 3, 500, 15,
          0, 0, BulkAnalyzer.FundingSource.owner, 6 / 100⟩).irr = some (901 / 200) :=
  (claimC9_disabled_da_irr _ (Or.inl rfl) (by norm_num)).2.2

/-- C5: for an owner-funded deal with positive units and term, the
notional loan payment follows the level-payment amortization formula
(`principal / n` at zero rate), the customer rate is the configured rate
minus `loanPayment / units` floored at zero, and no capital-provider fee
is charged. -/
theorem claimC5_owner_loan (input : BulkAnalyzer.BulkDealInput)
    (hu : 0 < input.units) (hT : 0 < input.termYears)
    (hf : input.fundingSource = BulkAnalyzer.FundingSource.owner) :
    (input.ownerLoanInterestRate ≠ 0 →
      BulkAnalyzer.calculateMonthlyPayment (BulkAnalyzer.totalCapex input)
          input.ownerLoanInterestRate input.termYears =
        BulkAnalyzer.totalCapex input *
          ((input.ownerLoanInterestRate / 12) *
            (1 + input.ownerLoanInterestRate / 12) ^ (input.termYears * 12)) /
          ((1 + input.ownerLoanInterestRate / 12) ^ (input.termYears * 12) - 1)) ∧
    (input.ownerLoanInterestRate = 0 →
      BulkAnalyzer.calculateMonthlyPayment (BulkAnalyzer.totalCapex input)
          input.ownerLoanInterestRate input.termYears =
        BulkAnalyzer.totalCapex input / ((input.termYears * 12 : ℕ) : ℚ)) ∧
    BulkAnalyzer.adjustedBulkRatePerUnit input =
      max 0 (input.bulkRatePerUnit -
        BulkAnalyzer.calculateMonthlyPayment (BulkAnalyzer.totalCapex input)
          input.ownerLoanInterestRate input.termYears / input.units) ∧
    BulkAnalyzer.baseDaPaymentPerMonth input = 0 ∧
    (BulkAnalyzer.analyzeBulkDeal input).daPaymentInitial = 0 := by
  have hbase : BulkAnalyzer.baseDaPaymentPerMonth input = 0 :=
    BulkAnalyzer.baseDaPaymentPerMonth_of_not_enabled (BulkAnalyzer.not_enabled_of_owner hf)
  refine ⟨?_, ?_, ?_, hbase, ?_⟩
  · intro hr
    unfold BulkAnalyzer.calculateMonthlyPayment
    by_cases hp : BulkAnalyzer.totalCapex input = 0
    · rw [if_pos (Or.inl hp), hp]
      norm_num
    · rw [if_neg (by push_neg; exact ⟨hp, hT.ne'⟩)]
      rw [if_neg (by simpa using hr)]
  · intro hr
    unfold BulkAnalyzer.calculateMonthlyPayment
    by_cases hp : BulkAnalyzer.totalCapex input = 0
    · rw [if_pos (Or.inl hp), hp]
      norm_num
    · rw [if_neg (by push_neg; exact ⟨hp, hT.ne'⟩)]
      rw [if_pos (by simp [hr])]
  · unfold BulkAnalyzer.adjustedBulkRatePerUnit BulkAnalyzer.rateDiscountPerUnit
    rw [if_pos hf, if_pos hf, if_pos hu]
  · show BulkAnalyzer.baseDaPaymentPerMonth input = 0
    exact hbase

/-- C5 witness: a concrete owner-funded deal at a 6% loan rate. -/
theorem claimC5_witness :
    BulkAnalyzer.baseDaPaymentPerMonth
      ⟨100, BulkAnalyzer.ConstructionType.brownfield, 5, 65, 350, 230, 50, 0, 3, 500, 15,
        0, 0, BulkAnalyzer.FundingSource.owner, 6 / 100⟩ = 0 :=
  (claimC5_owner_loan _ (by norm_num) (by norm_num) rfl).2.2.2.1

/-- C10: every row of the tiered model's year-by-year table satisfies
`ownerCashFlow = providerCashFlow + daPayment` exactly, and therefore
equals that year's revenue minus the year's operating cost, independent
of the DA fee. -/
theorem claimC10_yearly_owner_cash_flow (input : BulkAnalyzer.BulkDealInput) :
    ∀ e ∈ (BulkAnalyzer.analyzeBulkDeal input).yearlyCashFlows,
      e.ownerCashFlow = e.providerCashFlow + e.daPayment ∧
      e.ownerCashFlow = BulkAnalyzer.revenueYear input e.year -
        BulkAnalyzer.totalOpexPerMonth input * 12 := by
  intro e he
  have he' : e ∈ BulkAnalyzer.yearlyCashFlows input := he
  rcases List.mem_map.mp he' with ⟨k, hk, rfl⟩
  have hk' : k < input.termYears := List.mem_range.mp hk
  constructor
  · rfl
  · show (BulkAnalyzer.cashFlowsSprocket input).getD (k + 1) 0 +
        (BulkAnalyzer.cashFlowsDA input).getD (k + 1) 0 =
      BulkAnalyzer.revenueYear input (k + 1) - BulkAnalyzer.totalOpexPerMonth input * 12
    unfold BulkAnalyzer.cashFlowsSprocket BulkAnalyzer.cashFlowsDA
    rw [BulkAnalyzer.getD_cons_map_range hk', BulkAnalyzer.getD_cons_map_range hk']
    ring

/-- A concrete one-year DA-funded deal used to instantiate C10. -/
def claimC10Input : BulkAnalyzer.BulkDealInput :=
  ⟨219, BulkAnalyzer.ConstructionType.brownfield, 1, 65, 350, 230, 50, 0, 3, 500, 15, 0, 0,
    BulkAnalyzer.FundingSource.da, 0⟩

/-- C10 witness: the single row of a concrete one-year DA-funded deal. -/
theorem claimC10_witness :
    ({ year := 1
       providerCashFlow := (BulkAnalyzer.cashFlowsSprocket claimC10Input).getD 1 0
       ownerCashFlow := (BulkAnalyzer.cashFlowsSprocket claimC10Input).getD 1 0 +
         (BulkAnalyzer.cashFlowsDA claimC10Input).getD 1 0
       daPayment := (BulkAnalyzer.cashFlowsDA claimC10Input).getD 1 0 } :
        BulkAnalyzer.YearlyCashFlow).ownerCashFlow =
      BulkAnalyzer.revenueYear claimC10Input 1 -
        BulkAnalyzer.totalOpexPerMonth claimC10Input * 12 :=
  (claimC10_yearly_owner_cash_flow claimC10Input _
    (by simp [BulkAnalyzer.analyzeBulkDeal, BulkAnalyzer.yearlyCashFlows, claimC10Input, List.range_succ])).2

namespace BulkAnalyzer

lemma daInvestment_of_enabled {input : BulkDealInput}
    (h : daRevenueShareEnabled input) : daInvestment input = totalCapex input := if_pos h

lemma baseDaPaymentPerMonth_of_enabled {input : BulkDealInput}
    (h : daRevenueShareEnabled input) :
    baseDaPaymentPerMonth input = input.units * input.daBulkFeePerUnitPerMonth := if_pos h

lemma daPaymentRateAt_of_enabled {input : BulkDealInput}
    (h : daRevenueShareEnabled input) (cum : ℚ) :
    daPaymentRateAt input cum =
      waterfallRate cum (moic2x input) (moic2_5x input) (moic3x input) := if_pos h

lemma adjustedBulkRatePerUnit_of_da {input : BulkDealInput}
    (h : input.fundingSource = FundingSource.da) :
    adjustedBulkRatePerUnit input = input.bulkRatePerUnit := by
  simp [adjustedBulkRatePerUnit, h]

lemma leaseUpMultiplier_of_eff_zero {input : BulkDealInput}
    (h : leaseUpMonthsEff input = 0) (m : ℕ) : leaseUpMultiplier input m = 1 := by
  simp [leaseUpMultiplier, h]

lemma sum_map_range_const (n : ℕ) (f : ℕ → ℚ) (c : ℚ) (h : ∀ j, j < n → f j = c) :
    ((List.range n).map f).sum = n * c := by
  rw [List.map_congr_left (fun j hj => h j (List.mem_range.mp hj)), List.map_const',
    List.sum_replicate, List.length_range, nsmul_eq_mul]

/-- With a nonnegative invested capital the source's descending `≥`-chain
agrees pointwise with the spec's ascending `<`-banded rate table. -/
lemma waterfallRate_eq_of_nonneg {cum c : ℚ} (hc : 0 ≤ c) :
    waterfallRate cum (c * 2) (c * (5 / 2)) (c * 3) =
      (if cum < 2 * c then 1
       else if cum < 5 / 2 * c then 1 / 2
       else if cum < 3 * c then 1 / 4
       else 0) := by
  unfold waterfallRate
  split_ifs <;> first | rfl | linarith

/-- With a negative invested capital (ill-posed deal) the cumulative stays
at zero forever: the rate chain sees `0 ≥ 3 × capital` at once and pays
nothing. -/
lemma cumulativeDaReceived_of_neg_capex {input : BulkDealInput}
    (hda : daRevenueShareEnabled input) (hc : totalCapex input < 0) :
    ∀ m, cumulativeDaReceived input m = 0
  | 0 => rfl
  | m + 1 => by
    have ih := cumulativeDaReceived_of_neg_capex hda hc m
    have hrate : daPaymentRateAt input 0 = 0 := by
      rw [daPaymentRateAt_of_enabled hda]
      unfold waterfallRate moic3x
      rw [daInvestment_of_enabled hda, if_pos (by nlinarith)]
    simp [cumulativeDaReceived, ih, hrate]

end BulkAnalyzer

/-- C2: in every capital-provider-funded tiered simulation the monthly DA
fee is `units × daBulkFeePerUnitPerMonth ×` the banded rate selected from
the cumulative receipts as of the start of the month (1.0 below 2.0×
totalCapex, 0.5 in [2.0×, 2.5×), 0.25 in [2.5×, 3.0×), 0 at or above
3.0×), and only after the fee is computed is it added to the cumulative
seen by the next month. -/
theorem claimC2_tiered_rate_bands (input : BulkAnalyzer.BulkDealInput)
    (hda : input.fundingSource = BulkAnalyzer.FundingSource.da) :
    BulkAnalyzer.cumulativeDaReceived input 0 = 0 ∧
    ∀ m, 1 ≤ m → m ≤ 12 * input.termYears →
      (BulkAnalyzer.daPaymentMonth input m =
        input.units * input.daBulkFeePerUnitPerMonth *
          (if BulkAnalyzer.cumulativeDaReceived input (m - 1) <
              2 * BulkAnalyzer.totalCapex input then 1
           else if BulkAnalyzer.cumulativeDaReceived input (m - 1) <
              5 / 2 * BulkAnalyzer.totalCapex input then 1 / 2
           else if BulkAnalyzer.cumulativeDaReceived input (m - 1) <
              3 * BulkAnalyzer.totalCapex input then 1 / 4
           else 0)) ∧
      BulkAnalyzer.cumulativeDaReceived input m =
        BulkAnalyzer.cumulativeDaReceived input (m - 1) +
          BulkAnalyzer.daPaymentMonth input m := by
  have henabled : BulkAnalyzer.daRevenueShareEnabled input := hda
  refine ⟨rfl, ?_⟩
  intro m h1 _
  obtain ⟨k, rfl⟩ : ∃ k, m = k + 1 := ⟨m - 1, (Nat.succ_pred_eq_of_pos h1).symm⟩
  rw [Nat.add_sub_cancel]
  constructor
  · rw [BulkAnalyzer.daPaymentMonth, Nat.add_sub_cancel,
      BulkAnalyzer.daPaymentRateAt_of_enabled henabled,
      BulkAnalyzer.baseDaPaymentPerMonth_of_enabled henabled]
    rcases le_or_lt 0 (BulkAnalyzer.totalCapex input) with hc | hc
    · rw [BulkAnalyzer.moic2x, BulkAnalyzer.moic2_5x, BulkAnalyzer.moic3x,
        BulkAnalyzer.daInvestment_of_enabled henabled,
        BulkAnalyzer.waterfallRate_eq_of_nonneg hc]
    · rw [BulkAnalyzer.cumulativeDaReceived_of_neg_capex henabled hc k]
      rw [BulkAnalyzer.moic2x, BulkAnalyzer.moic2_5x, BulkAnalyzer.moic3x,
        BulkAnalyzer.daInvestment_of_enabled henabled, BulkAnalyzer.waterfallRate,
        if_pos (by nlinarith), if_neg (by nlinarith), if_neg (by nlinarith),
        if_neg (by nlinarith)]
  · rw [BulkAnalyzer.daPaymentMonth, Nat.add_sub_cancel]
    rfl

/-- C2 witness: month 1 of a concrete DA-funded deal. -/
theorem claimC2_witness :
    BulkAnalyzer.daPaymentMonth claimC10Input 1 =
      claimC10Input.units * claimC10Input.daBulkFeePerUnitPerMonth *
        (if BulkAnalyzer.cumulativeDaReceived claimC10Input 0 <
            2 * BulkAnalyzer.totalCapex claimC10Input then 1
         else if BulkAnalyzer.cumulativeDaReceived claimC10Input 0 <
            5 / 2 * BulkAnalyzer.totalCapex claimC10Input then 1 / 2
         else if BulkAnalyzer.cumulativeDaReceived claimC10Input 0 <
            3 * BulkAnalyzer.totalCapex claimC10Input then 1 / 4
         else 0) :=
  (((claimC2_tiered_rate_bands claimC10Input rfl).2 1 (by norm_num)
    (by norm_num [claimC10Input])).1 :)

/-- C3 (amended): the tiered variant guards both degenerate divisions —
payback is the infinite sentinel whenever the average annual net cash
flow is not positive and the raw quotient otherwise, and the OCF yield is
0 whenever totalCapex is not positive and the raw quotient otherwise.
The flat (v1) variant computes both quotients unguarded, so a negative
average yields a finite negative payback instead of the infinite
sentinel. -/
theorem claimC3_division_guards (i : BulkAnalyzer.BulkDealInput)
    (j : BulkAnalyzerV1.BulkDealInput) :
    ((BulkAnalyzer.analyzeBulkDeal i).netCashFlowPerYear ≤ 0 →
      (BulkAnalyzer.analyzeBulkDeal i).paybackYears = none) ∧
    (0 < (BulkAnalyzer.analyzeBulkDeal i).netCashFlowPerYear →
      (BulkAnalyzer.analyzeBulkDeal i).paybackYears =
        some ((BulkAnalyzer.analyzeBulkDeal i).totalCapex /
          (BulkAnalyzer.analyzeBulkDeal i).netCashFlowPerYear)) ∧
    ((BulkAnalyzer.analyzeBulkDeal i).totalCapex ≤ 0 →
      (BulkAnalyzer.analyzeBulkDeal i).ocfYield = 0) ∧
    (0 < (BulkAnalyzer.analyzeBulkDeal i).totalCapex →
      (BulkAnalyzer.analyzeBulkDeal i).ocfYield =
        (BulkAnalyzer.analyzeBulkDeal i).netCashFlowPerYear /
          (BulkAnalyzer.analyzeBulkDeal i).totalCapex) ∧
    ((BulkAnalyzerV1.analyzeBulkDeal j).netCashFlowPerYear < 0 →
      0 < (BulkAnalyzerV1.analyzeBulkDeal j).totalCapex →
      (BulkAnalyzerV1.analyzeBulkDeal j).paybackYears < 0) := by
  refine ⟨?_, ?_, ?_, ?_, ?_⟩
  · intro h
    have h' : BulkAnalyzer.averageNetCashFlowPerYear i ≤ 0 := h
    show BulkAnalyzer.paybackYears i = none
    rw [BulkAnalyzer.paybackYears, if_neg (not_lt.mpr h')]
  · intro h
    have h' : 0 < BulkAnalyzer.averageNetCashFlowPerYear i := h
    show BulkAnalyzer.paybackYears i =
      some (BulkAnalyzer.totalCapex i / BulkAnalyzer.averageNetCashFlowPerYear i)
    rw [BulkAnalyzer.paybackYears, if_pos h']
  · intro h
    have h' : BulkAnalyzer.totalCapex i ≤ 0 := h
    show BulkAnalyzer.ocfYield i = 0
    rw [BulkAnalyzer.ocfYield, if_neg (not_lt.mpr h')]
  · intro h
    have h' : 0 < BulkAnalyzer.totalCapex i := h
    show BulkAnalyzer.ocfYield i =
      BulkAnalyzer.averageNetCashFlowPerYear i / BulkAnalyzer.totalCapex i
    rw [BulkAnalyzer.ocfYield, if_pos h']
  · intro h1 h2
    have hpb : (BulkAnalyzerV1.analyzeBulkDeal j).paybackYears =
        (BulkAnalyzerV1.analyzeBulkDeal j).totalCapex /
          (BulkAnalyzerV1.analyzeBulkDeal j).netCashFlowPerYear := rfl
    rw [hpb]
    exact div_neg_of_pos_of_neg h2 h1

/-- C3 counterexample: a v1 deal with `capex = 100` and a yearly net cash
flow of `-12` gets `paybackYears = -25/3`, a finite negative number, not
the infinite sentinel required by the claim for a non-positive average. -/
theorem claimC3_counterexample :
    (BulkAnalyzerV1.analyzeBulkDeal ⟨1, 1, 0, 100, 0, 0, 0, 1, 0, 0, 0⟩).netCashFlowPerYear =
      -12 ∧
    (BulkAnalyzerV1.analyzeBulkDeal ⟨1, 1, 0, 100, 0, 0, 0, 1, 0, 0, 0⟩).paybackYears =
      -(25 / 3) := by
  constructor
  · show ((1 : ℚ) * 0 - 1 * 0 - (1 * 1 + 0)) * 12 = -12
    norm_num
  · show (1 : ℚ) * (100 + 0 + 0 + 0) / (((1 : ℚ) * 0 - 1 * 0 - (1 * 1 + 0)) * 12) = -(25 / 3)
    norm_num

/-- A concrete DA-funded one-year deal with a zero DA fee and positive
net cash flow, used to instantiate C3 and C4. -/
def claimC3Input : BulkAnalyzer.BulkDealInput :=
  ⟨1, BulkAnalyzer.ConstructionType.brownfield, 1, 10, 100, 0, 0, 0, 2, 0, 0, 0, 0,
    BulkAnalyzer.FundingSource.da, 0⟩

lemma claimC3Input_base_zero : BulkAnalyzer.baseDaPaymentPerMonth claimC3Input = 0 := by
  rw [BulkAnalyzer.baseDaPaymentPerMonth_of_enabled
    (show BulkAnalyzer.daRevenueShareEnabled claimC3Input from rfl)]
  norm_num [claimC3Input]

lemma claimC3Input_revenueYear : BulkAnalyzer.revenueYear claimC3Input 1 = 120 := by
  have h : ∀ j, j < 12 →
      BulkAnalyzer.revenueMonth claimC3Input (12 * (1 - 1) + j + 1) = 10 := by
    intro j _
    unfold BulkAnalyzer.revenueMonth
    rw [BulkAnalyzer.adjustedBulkRatePerUnit_of_da rfl,
      BulkAnalyzer.leaseUpMultiplier_of_eff_zero
        (by simp [BulkAnalyzer.leaseUpMonthsEff, claimC3Input])]
    norm_num [claimC3Input]
  unfold BulkAnalyzer.revenueYear
  rw [BulkAnalyzer.sum_map_range_const 12 _ 10 h]
  norm_num

lemma claimC3Input_avg : BulkAnalyzer.averageNetCashFlowPerYear claimC3Input = 96 := by
  have hts : BulkAnalyzer.totalSprocketCashFlow claimC3Input = 96 := by
    unfold BulkAnalyzer.totalSprocketCashFlow BulkAnalyzer.cashFlowsSprocket
    rw [show claimC3Input.termYears = 1 from rfl]
    simp only [List.range_succ, List.range_zero, List.nil_append, List.map_cons,
      List.map_nil, List.drop_succ_cons, List.drop_zero, List.sum_cons, List.sum_nil,
      Nat.zero_add]
    rw [claimC3Input_revenueYear,
      BulkAnalyzer.daPaymentYear_of_base_zero claimC3Input_base_zero 1]
    norm_num [BulkAnalyzer.totalOpexPerMonth, BulkAnalyzer.supportOpexPerMonth,
      BulkAnalyzer.transportOpexPerMonth, claimC3Input]
  unfold BulkAnalyzer.averageNetCashFlowPerYear
  rw [hts]
  norm_num [claimC3Input]

/-- C3 witness: the guards of the tiered variant and the unguarded v1
quotient, instantiated at concrete deals. -/
theorem claimC3_witness :
    (BulkAnalyzer.analyzeBulkDeal claimC3Input).paybackYears =
      some ((BulkAnalyzer.analyzeBulkDeal claimC3Input).totalCapex /
        (BulkAnalyzer.analyzeBulkDeal claimC3Input).netCashFlowPerYear) ∧
    (BulkAnalyzerV1.analyzeBulkDeal ⟨1, 1, 0, 100, 0, 0, 0, 1, 0, 0, 0⟩).paybackYears < 0 := by
  constructor
  · refine (claimC3_division_guards claimC3Input ⟨1, 1, 0, 100, 0, 0, 0, 1, 0, 0, 0⟩).2.1 ?_
    show 0 < BulkAnalyzer.averageNetCashFlowPerYear claimC3Input
    rw [claimC3Input_avg]
    norm_num
  · exact (claimC3_division_guards claimC3Input ⟨1, 1, 0, 100, 0, 0, 0, 1, 0, 0, 0⟩).2.2.2.2
      (by show ((1 : ℚ) * 0 - 1 * 0 - (1 * 1 + 0)) * 12 < 0; norm_num)
      (by show (0 : ℚ) < 1 * (100 + 0 + 0 + 0); norm_num)

/-- Projection of the tiered input record onto the fields the flat (v1)
model consumes. -/
def toV1 (input : BulkAnalyzer.BulkDealInput) : BulkAnalyzerV1.BulkDealInput :=
  ⟨input.units, input.termYears, input.bulkRatePerUnit, input.buildCostPerUnit,
    input.cpeCostPerUnit, input.installCostPerUnit, input.doorFeePerUnit,
    input.supportOpexPerUnitPerMonth, input.transportOpexPerMonth,
    input.daBulkFeePerUnitPerMonth, input.discountRate⟩

namespace BulkAnalyzer

lemma leaseUpMonthsEff_of_inactive {input : BulkDealInput}
    (h : input.leaseUpMonths = 0 ∨ input.constructionType = ConstructionType.brownfield) :
    leaseUpMonthsEff input = 0 := by
  unfold leaseUpMonthsEff
  rcases h with h | h
  · simp [h]
  · simp [h]

end BulkAnalyzer

/-- C4 (amended): a capital-provider-funded deal with inactive lease-up,
cumulative receipts below the 2.0× threshold at every monthly check,
`termYears ≥ 1`, and positive net cash flow gets identical values from
the flat (v1) model and the tiered model on every shared metric,
including the operating-entity IRR. -/
theorem claimC4_flat_tiered_equivalence (input : BulkAnalyzer.BulkDealInput)
    (hda : input.fundingSource = BulkAnalyzer.FundingSource.da)
    (hl : input.leaseUpMonths = 0 ∨
      input.constructionType = BulkAnalyzer.ConstructionType.brownfield)
    (hT : 1 ≤ input.termYears)
    (hcum : ∀ m, 1 ≤ m → m ≤ 12 * input.termYears →
      BulkAnalyzer.cumulativeDaReceived input (m - 1) < BulkAnalyzer.moic2x input)
    (hpos : 0 < (BulkAnalyzerV1.analyzeBulkDeal (toV1 input)).netCashFlowPerYear) :
    (BulkAnalyzerV1.analyzeBulkDeal (toV1 input)).capexPerUnit =
      (BulkAnalyzer.analyzeBulkDeal input).capexPerUnit ∧
    (BulkAnalyzerV1.analyzeBulkDeal (toV1 input)).totalCapex =
      (BulkAnalyzer.analyzeBulkDeal input).totalCapex ∧
    (BulkAnalyzerV1.analyzeBulkDeal (toV1 input)).grossRevenuePerMonth =
      (BulkAnalyzer.analyzeBulkDeal input).grossRevenuePerMonth ∧
    (BulkAnalyzerV1.analyzeBulkDeal (toV1 input)).daPaymentPerMonth =
      (BulkAnalyzer.analyzeBulkDeal input).daPaymentPerMonth ∧
    (BulkAnalyzerV1.analyzeBulkDeal (toV1 input)).supportOpexPerMonth =
      (BulkAnalyzer.analyzeBulkDeal input).supportOpexPerMonth ∧
    (BulkAnalyzerV1.analyzeBulkDeal (toV1 input)).transportOpexPerMonth =
      (BulkAnalyzer.analyzeBulkDeal input).transportOpexPerMonth ∧
    (BulkAnalyzerV1.analyzeBulkDeal (toV1 input)).totalOpexPerMonth =
      (BulkAnalyzer.analyzeBulkDeal input).totalOpexPerMonth ∧
    (BulkAnalyzerV1.analyzeBulkDeal (toV1 input)).netCashFlowPerMonth =
      (BulkAnalyzer.analyzeBulkDeal input).netCashFlowPerMonth ∧
    (BulkAnalyzerV1.analyzeBulkDeal (toV1 input)).netCashFlowPerYear =
      (BulkAnalyzer.analyzeBulkDeal input).netCashFlowPerYear ∧
    (BulkAnalyzer.analyzeBulkDeal input).paybackYears =
      some (BulkAnalyzerV1.analyzeBulkDeal (toV1 input)).paybackYears ∧
    (BulkAnalyzerV1.analyzeBulkDeal (toV1 input)).ocfYield =
      (BulkAnalyzer.analyzeBulkDeal input).ocfYield ∧
    (BulkAnalyzerV1.analyzeBulkDeal (toV1 input)).irr =
      (BulkAnalyzer.analyzeBulkDeal input).sprocketIrr := by
  have henabled : BulkAnalyzer.daRevenueShareEnabled input := hda
  have hTQ : (input.termYears : ℚ) ≠ 0 := Nat.cast_ne_zero.mpr (by omega)
  have hleff : BulkAnalyzer.leaseUpMonthsEff input = 0 :=
    BulkAnalyzer.leaseUpMonthsEff_of_inactive hl
  have e2 : BulkAnalyzer.moic2x input = BulkAnalyzer.totalCapex input * 2 := by
    rw [BulkAnalyzer.moic2x, BulkAnalyzer.daInvestment_of_enabled henabled]
  have e25 : BulkAnalyzer.moic2_5x input = BulkAnalyzer.totalCapex input * (5 / 2) := by
    rw [BulkAnalyzer.moic2_5x, BulkAnalyzer.daInvestment_of_enabled henabled]
  have e3 : BulkAnalyzer.moic3x input = BulkAnalyzer.totalCapex input * 3 := by
    rw [BulkAnalyzer.moic3x, BulkAnalyzer.daInvestment_of_enabled henabled]
  have hcapex : 0 < BulkAnalyzer.totalCapex input := by
    have h0 := hcum 1 (le_refl 1) (by omega)
    rw [show BulkAnalyzer.cumulativeDaReceived input (1 - 1) = 0 from rfl, e2] at h0
    linarith
  have hfee : ∀ m, 1 ≤ m → m ≤ 12 * input.termYears →
      BulkAnalyzer.daPaymentMonth input m =
        input.units * input.daBulkFeePerUnitPerMonth := by
    intro m h1 h2
    have hc := hcum m h1 h2
    rw [e2] at hc
    rw [BulkAnalyzer.daPaymentMonth, BulkAnalyzer.daPaymentRateAt_of_enabled henabled,
      BulkAnalyzer.baseDaPaymentPerMonth_of_enabled henabled, BulkAnalyzer.waterfallRate,
      e2, e25, e3, if_neg (by nlinarith), if_neg (by nlinarith), if_neg (by nlinarith),
      mul_one]
  have hdayear : ∀ y, 1 ≤ y → y ≤ input.termYears →
      BulkAnalyzer.daPaymentYear input y =
        12 * (input.units * input.daBulkFeePerUnitPerMonth) := by
    intro y hy1 hy2
    unfold BulkAnalyzer.daPaymentYear
    rw [BulkAnalyzer.sum_map_range_const 12 _
      (input.units * input.daBulkFeePerUnitPerMonth)
      (fun j hj => hfee (12 * (y - 1) + j + 1) (by omega) (by omega))]
    norm_num
  have hrevmonth : ∀ m : ℕ, BulkAnalyzer.revenueMonth input m =
      input.units * input.bulkRatePerUnit := by
    intro m
    unfold BulkAnalyzer.revenueMonth
    rw [BulkAnalyzer.adjustedBulkRatePerUnit_of_da hda,
      BulkAnalyzer.leaseUpMultiplier_of_eff_zero hleff, mul_one]
  have hrevyear : ∀ y : ℕ, BulkAnalyzer.revenueYear input y =
      12 * (input.units * input.bulkRatePerUnit) := by
    intro y
    unfold BulkAnalyzer.revenueYear
    rw [BulkAnalyzer.sum_map_range_const 12 _ (input.units * input.bulkRatePerUnit)
      (fun j _ => hrevmonth (12 * (y - 1) + j + 1))]
    norm_num
  have hyearval : ∀ k, k < input.termYears →
      BulkAnalyzer.revenueYear input (k + 1) - BulkAnalyzer.daPaymentYear input (k + 1) -
          BulkAnalyzer.totalOpexPerMonth input * 12 =
        12 * (input.units * input.bulkRatePerUnit) -
          12 * (input.units * input.daBulkFeePerUnitPerMonth) -
          BulkAnalyzer.totalOpexPerMonth input * 12 := by
    intro k hk
    rw [hrevyear (k + 1), hdayear (k + 1) (by omega) (by omega)]
  have havg : BulkAnalyzer.averageNetCashFlowPerYear input =
      12 * (input.units * input.bulkRatePerUnit) -
        12 * (input.units * input.daBulkFeePerUnitPerMonth) -
        BulkAnalyzer.totalOpexPerMonth input * 12 := by
    unfold BulkAnalyzer.averageNetCashFlowPerYear BulkAnalyzer.totalSprocketCashFlow
      BulkAnalyzer.cashFlowsSprocket
    rw [List.drop_succ_cons, List.drop_zero,
      BulkAnalyzer.sum_map_range_const input.termYears _ _ hyearval,
      mul_comm ((input.termYears : ℕ) : ℚ), mul_div_assoc, div_self hTQ, mul_one]
  have hnet1 : (BulkAnalyzerV1.analyzeBulkDeal (toV1 input)).netCashFlowPerYear =
      (input.units * input.bulkRatePerUnit - input.units * input.daBulkFeePerUnitPerMonth -
        (input.units * input.supportOpexPerUnitPerMonth + input.transportOpexPerMonth)) *
        12 := rfl
  have hopex : BulkAnalyzer.totalOpexPerMonth input =
      input.units * input.supportOpexPerUnitPerMonth + input.transportOpexPerMonth := rfl
  have havg1 : BulkAnalyzer.averageNetCashFlowPerYear input =
      (BulkAnalyzerV1.analyzeBulkDeal (toV1 input)).netCashFlowPerYear := by
    rw [havg, hnet1, hopex]
    ring
  have hda_total : BulkAnalyzer.totalDaPayments input =
      (input.termYears : ℚ) * (12 * (input.units * input.daBulkFeePerUnitPerMonth)) := by
    unfold BulkAnalyzer.totalDaPayments BulkAnalyzer.cashFlowsDA
    rw [List.drop_succ_cons, List.drop_zero,
      BulkAnalyzer.sum_map_range_const input.termYears _
        (12 * (input.units * input.daBulkFeePerUnitPerMonth))
        (fun k hk => hdayear (k + 1) (by omega) (by omega))]
  refine ⟨rfl, rfl, ?_, ?_, rfl, rfl, rfl, ?_, ?_, ?_, ?_, ?_⟩
  · show input.units * input.bulkRatePerUnit =
      BulkAnalyzer.orZero input.units * BulkAnalyzer.adjustedBulkRatePerUnit input
    rw [BulkAnalyzer.orZero_eq, BulkAnalyzer.adjustedBulkRatePerUnit_of_da hda]
  · show input.units * input.daBulkFeePerUnitPerMonth =
      BulkAnalyzer.averageDaPaymentPerMonth input
    unfold BulkAnalyzer.averageDaPaymentPerMonth
    rw [hda_total]
    push_cast
    field_simp
    ring
  · show input.units * input.bulkRatePerUnit - input.units * input.daBulkFeePerUnitPerMonth -
        (input.units * input.supportOpexPerUnitPerMonth + input.transportOpexPerMonth) =
      BulkAnalyzer.averageNetCashFlowPerMonth input
    unfold BulkAnalyzer.averageNetCashFlowPerMonth
    rw [havg1, hnet1]
    ring
  · show (BulkAnalyzerV1.analyzeBulkDeal (toV1 input)).netCashFlowPerYear =
      BulkAnalyzer.averageNetCashFlowPerYear input
    rw [havg1]
  · show BulkAnalyzer.paybackYears input = some _
    rw [BulkAnalyzer.paybackYears, if_pos (by rw [havg1]; exact hpos)]
    refine congrArg some ?_
    show BulkAnalyzer.totalCapex input / BulkAnalyzer.averageNetCashFlowPerYear input =
      (BulkAnalyzerV1.analyzeBulkDeal (toV1 input)).totalCapex /
        (BulkAnalyzerV1.analyzeBulkDeal (toV1 input)).netCashFlowPerYear
    rw [havg1]
    rfl
  · show (BulkAnalyzerV1.analyzeBulkDeal (toV1 input)).netCashFlowPerYear /
        (BulkAnalyzerV1.analyzeBulkDeal (toV1 input)).totalCapex =
      BulkAnalyzer.ocfYield input
    rw [BulkAnalyzer.ocfYield, if_pos hcapex, havg1]
    rfl
  · show IrrModel.solveIrr _ = IrrModel.solveIrr (BulkAnalyzer.cashFlowsSprocket input)
    refine congrArg IrrModel.solveIrr ?_
    show -(BulkAnalyzerV1.analyzeBulkDeal (toV1 input)).totalCapex ::
        List.replicate input.termYears
          (BulkAnalyzerV1.analyzeBulkDeal (toV1 input)).netCashFlowPerYear =
      BulkAnalyzer.cashFlowsSprocket input
    unfold BulkAnalyzer.cashFlowsSprocket
    refine congrArg₂ List.cons rfl ?_
    symm
    apply List.eq_replicate_iff.mpr
    refine ⟨by simp, fun b hb => ?_⟩
    rcases List.mem_map.mp hb with ⟨k, hk, rfl⟩
    rw [hyearval k (List.mem_range.mp hk), hnet1, hopex]
    ring

/-- A deal meeting C4's stated conditions (DA-funded, lease-up inactive,
receipts below 2.0× throughout — the fee is zero, so receipts stay at 0)
whose net cash flow is negative. -/
def claimC4InputA : BulkAnalyzer.BulkDealInput :=
  ⟨1, BulkAnalyzer.ConstructionType.brownfield, 1, 0, 100, 0, 0, 0, 1, 0, 0, 0, 0,
    BulkAnalyzer.FundingSource.da, 0⟩

/-- A DA-funded deal with `termYears = 0` and a positive per-unit fee. -/
def claimC4InputB : BulkAnalyzer.BulkDealInput :=
  ⟨1, BulkAnalyzer.ConstructionType.brownfield, 0, 0, 100, 0, 0, 0, 1, 0, 15, 0, 0,
    BulkAnalyzer.FundingSource.da, 0⟩

lemma claimC4InputA_base_zero : BulkAnalyzer.baseDaPaymentPerMonth claimC4InputA = 0 := by
  rw [BulkAnalyzer.baseDaPaymentPerMonth_of_enabled
    (show BulkAnalyzer.daRevenueShareEnabled claimC4InputA from rfl)]
  norm_num [claimC4InputA]

lemma claimC4InputA_avg :
    BulkAnalyzer.averageNetCashFlowPerYear claimC4InputA = -12 := by
  have hrev : BulkAnalyzer.revenueYear claimC4InputA 1 = 0 := by
    have h : ∀ j, j < 12 →
        BulkAnalyzer.revenueMonth claimC4InputA (12 * (1 - 1) + j + 1) = 0 := by
      intro j _
      unfold BulkAnalyzer.revenueMonth
      rw [BulkAnalyzer.adjustedBulkRatePerUnit_of_da rfl]
      norm_num [claimC4InputA]
    unfold BulkAnalyzer.revenueYear
    rw [BulkAnalyzer.sum_map_range_const 12 _ 0 h]
    norm_num
  have hts : BulkAnalyzer.totalSprocketCashFlow claimC4InputA = -12 := by
    unfold BulkAnalyzer.totalSprocketCashFlow BulkAnalyzer.cashFlowsSprocket
    rw [show claimC4InputA.termYears = 1 from rfl]
    simp only [List.range_succ, List.range_zero, List.nil_append, List.map_cons,
      List.map_nil, List.drop_succ_cons, List.drop_zero, List.sum_cons, List.sum_nil,
      Nat.zero_add]
    rw [hrev, BulkAnalyzer.daPaymentYear_of_base_zero claimC4InputA_base_zero 1]
    norm_num [BulkAnalyzer.totalOpexPerMonth, BulkAnalyzer.supportOpexPerMonth,
      BulkAnalyzer.transportOpexPerMonth, claimC4InputA]
  unfold BulkAnalyzer.averageNetCashFlowPerYear
  rw [hts]
  norm_num [claimC4InputA]

/-- C4 counterexample.  Input A satisfies all of the claim's conditions
(DA funding, inactive lease-up, zero fee so cumulative receipts stay at 0,
strictly below the positive 2.0× threshold), yet the two models disagree
on `paybackYears`: the tiered model returns the infinite sentinel (NONE)
because the average net cash flow is `-12`, while v1 returns the finite
negative `-25/3`.  Input B (termYears = 0, fee $15/unit) makes the models
disagree on `daPaymentPerMonth`: v1 reports 15 while the tiered model's
average is `0/0` (`NaN` in JavaScript, 0 in this exact-rational
embedding) — in either reading it is not 15. -/
theorem claimC4_counterexample :
    BulkAnalyzer.baseDaPaymentPerMonth claimC4InputA = 0 ∧
    0 < BulkAnalyzer.moic2x claimC4InputA ∧
    (BulkAnalyzer.analyzeBulkDeal claimC4InputA).paybackYears = none ∧
    (BulkAnalyzerV1.analyzeBulkDeal (toV1 claimC4InputA)).paybackYears = -(25 / 3) ∧
    (BulkAnalyzerV1.analyzeBulkDeal (toV1 claimC4InputB)).daPaymentPerMonth = 15 ∧
    (BulkAnalyzer.analyzeBulkDeal claimC4InputB).daPaymentPerMonth = 0 := by
  refine ⟨claimC4InputA_base_zero, ?_, ?_, ?_, ?_, ?_⟩
  · rw [BulkAnalyzer.moic2x,
      BulkAnalyzer.daInvestment_of_enabled
        (show BulkAnalyzer.daRevenueShareEnabled claimC4InputA from rfl)]
    norm_num [BulkAnalyzer.totalCapex, BulkAnalyzer.capexPerUnit, claimC4InputA]
  · show BulkAnalyzer.paybackYears claimC4InputA = none
    rw [BulkAnalyzer.paybackYears, if_neg (by rw [claimC4InputA_avg]; norm_num)]
  · show (1 : ℚ) * (100 + 0 + 0 + 0) / (((1 : ℚ) * 0 - 1 * 0 - (1 * 1 + 0)) * 12) =
      -(25 / 3)
    norm_num
  · show (1 : ℚ) * 15 = 15
    norm_num
  · show BulkAnalyzer.averageDaPaymentPerMonth claimC4InputB = 0
    unfold BulkAnalyzer.averageDaPaymentPerMonth BulkAnalyzer.totalDaPayments
      BulkAnalyzer.cashFlowsDA
    rw [show claimC4InputB.termYears = 0 from rfl]
    simp

/-- C4 witness: at a concrete deal meeting all the amended conditions,
the flat and tiered models agree on the monthly DA payment. -/
theorem claimC4_witness :
    (BulkAnalyzerV1.analyzeBulkDeal (toV1 claimC3Input)).daPaymentPerMonth =
      (BulkAnalyzer.analyzeBulkDeal claimC3Input).daPaymentPerMonth :=
  (claimC4_flat_tiered_equivalence claimC3Input rfl (Or.inr rfl)
    (by norm_num [claimC3Input])
    (fun m _ _ => by
      rw [BulkAnalyzer.cumulativeDaReceived_of_base_zero claimC3Input_base_zero (m - 1),
        BulkAnalyzer.moic2x,
        BulkAnalyzer.daInvestment_of_enabled
          (show BulkAnalyzer.daRevenueShareEnabled claimC3Input from rfl)]
      norm_num [BulkAnalyzer.totalCapex, BulkAnalyzer.capexPerUnit, claimC3Input])
    (by
      show (0 : ℚ) < ((1 : ℚ) * 10 - 1 * 0 - (1 * 2 + 0)) * 12
      norm_num)).2.2.2.1

namespace BulkAnalyzer

/-- First month in `1..N` at which the monthly trajectory `f` reaches the
threshold `t` (helper for characterizing the milestone scan). -/
def firstGE (f : ℕ → ℚ) (t : ℚ) : ℕ → Option ℕ
  | 0 => none
  | n + 1 =>
    match firstGE f t n with
    | some m => some m
    | none => if t ≤ f (n + 1) then some (n + 1) else none

lemma firstGE_succ (f : ℕ → ℚ) (t : ℚ) (n : ℕ) :
    firstGE f t (n + 1) =
      (if firstGE f t n = none ∧ t ≤ f (n + 1) then some (n + 1) else firstGE f t n) := by
  cases h : firstGE f t n with
  | some m => simp [firstGE, h]
  | none =>
    by_cases ht : t ≤ f (n + 1) <;> simp [firstGE, h, ht]

lemma firstGE_stable {f : ℕ → ℚ} {t : ℚ} {n m : ℕ} (h : firstGE f t n = some m) :
    ∀ k, firstGE f t (n + k) = some m
  | 0 => h
  | k + 1 => by
    have ih := firstGE_stable h k
    rw [show n + (k + 1) = (n + k) + 1 by omega, firstGE_succ, ih]
    simp

lemma firstGE_none {f : ℕ → ℚ} {t : ℚ} :
    ∀ {n}, firstGE f t n = none → ∀ j, 1 ≤ j → j ≤ n → f j < t := by
  intro n
  induction n with
  | zero => intro _ j h1 h2; omega
  | succ n ih =>
    intro h j h1 h2
    rw [firstGE_succ] at h
    split_ifs at h with hcond
    · rcases Nat.lt_or_ge j (n + 1) with hj | hj
      · exact ih h j h1 (by omega)
      · have hj' : j = n + 1 := by omega
        subst hj'
        have hnle : ¬t ≤ f (n + 1) := fun ht => hcond ⟨h, ht⟩
        exact not_le.mp hnle

lemma firstGE_some {f : ℕ → ℚ} {t : ℚ} :
    ∀ {n m}, firstGE f t n = some m →
      1 ≤ m ∧ m ≤ n ∧ t ≤ f m ∧ ∀ j, 1 ≤ j → j < m → f j < t := by
  intro n
  induction n with
  | zero => intro m h; exact absurd h (by simp [firstGE])
  | succ n ih =>
    intro m h
    rw [firstGE_succ] at h
    split_ifs at h with hcond
    · cases h
      exact ⟨by omega, le_refl _, hcond.2,
        fun j h1 h2 => firstGE_none hcond.1 j h1 (by omega)⟩
    · have := ih h
      exact ⟨this.1, by omega, this.2.2.1, this.2.2.2⟩

lemma firstGE_mono {f : ℕ → ℚ} {t t' : ℚ} (htt : t ≤ t') {n a b : ℕ}
    (ha : firstGE f t n = some a) (hb : firstGE f t' n = some b) : a ≤ b := by
  rcases firstGE_some ha with ⟨_, _, _, ha4⟩
  rcases firstGE_some hb with ⟨hb1, _, hb3, _⟩
  by_contra hab
  push_neg at hab
  have := ha4 b hb1 hab
  linarith

/-- One unfolding of the milestone walk, `let`s expanded. -/
lemma milestoneScan_step (base t2 t25 t3 : ℚ) (k gm : ℕ) (cum : ℚ)
    (m2 m25 m3 : Option ℕ) :
    milestoneScan base t2 t25 t3 (k + 1) gm cum m2 m25 m3 =
      (if (if m3 = none ∧ cum + base * waterfallRate cum t2 t25 t3 ≥ t3
            then some (gm + 1) else m3).isSome then
        (if m2 = none ∧ cum + base * waterfallRate cum t2 t25 t3 ≥ t2
            then some (gm + 1) else m2,
         if m25 = none ∧ cum + base * waterfallRate cum t2 t25 t3 ≥ t25
            then some (gm + 1) else m25,
         if m3 = none ∧ cum + base * waterfallRate cum t2 t25 t3 ≥ t3
            then some (gm + 1) else m3)
       else
        milestoneScan base t2 t25 t3 k (gm + 1)
          (cum + base * waterfallRate cum t2 t25 t3)
          (if m2 = none ∧ cum + base * waterfallRate cum t2 t25 t3 ≥ t2
            then some (gm + 1) else m2)
          (if m25 = none ∧ cum + base * waterfallRate cum t2 t25 t3 ≥ t25
            then some (gm + 1) else m25)
          (if m3 = none ∧ cum + base * waterfallRate cum t2 t25 t3 ≥ t3
            then some (gm + 1) else m3)) := rfl

/-- Loop invariant of the milestone walk: started after `gm` months with
the three set-once registers holding the first crossings seen so far (and
the 3.0× threshold not yet reached), the walk computes exactly the first
crossing months of the underlying trajectory, provided the 2.0× and 2.5×
thresholds do not exceed the 3.0× one (so that the early `break` cannot
discard a pending crossing). -/
lemma milestoneScan_eq_firstGE (base t2 t25 t3 : ℚ) (f : ℕ → ℚ)
    (hf : ∀ m, f (m + 1) = f m + base * waterfallRate (f m) t2 t25 t3)
    (h23 : t2 ≤ t3) (h253 : t25 ≤ t3) :
    ∀ (k gm : ℕ), firstGE f t3 gm = none →
      milestoneScan base t2 t25 t3 k gm (f gm)
          (firstGE f t2 gm) (firstGE f t25 gm) none =
        (firstGE f t2 (gm + k), firstGE f t25 (gm + k), firstGE f t3 (gm + k)) := by
  intro k
  induction k with
  | zero =>
    intro gm h3
    rw [Nat.add_zero, h3]
    rfl
  | succ k ih =>
    intro gm h3
    rw [milestoneScan_step]
    have hstep : f gm + base * waterfallRate (f gm) t2 t25 t3 = f (gm + 1) := (hf gm).symm
    rw [hstep]
    have h2eq : (if firstGE f t2 gm = none ∧ f (gm + 1) ≥ t2
        then some (gm + 1) else firstGE f t2 gm) = firstGE f t2 (gm + 1) := by
      rw [firstGE_succ]
    have h25eq : (if firstGE f t25 gm = none ∧ f (gm + 1) ≥ t25
        then some (gm + 1) else firstGE f t25 gm) = firstGE f t25 (gm + 1) := by
      rw [firstGE_succ]
    have h3eq : (if (none : Option ℕ) = none ∧ f (gm + 1) ≥ t3
        then some (gm + 1) else (none : Option ℕ)) = firstGE f t3 (gm + 1) := by
      rw [firstGE_succ, h3]
    rw [h2eq, h25eq, h3eq]
    cases hopt : firstGE f t3 (gm + 1) with
    | none =>
      rw [if_neg (by simp)]
      rw [show gm + (k + 1) = (gm + 1) + k by omega]
      exact ih (gm + 1) hopt
    | some m3v =>
      rw [if_pos (by simp)]
      have hsplit : firstGE f t3 (gm + 1) =
          if t3 ≤ f (gm + 1) then some (gm + 1) else none := by
        rw [firstGE_succ, h3]
        simp
      have hcle : t3 ≤ f (gm + 1) := by
        by_contra hn
        rw [hsplit, if_neg hn] at hopt
        exact Option.noConfusion hopt
      have h2some : ∃ a, firstGE f t2 (gm + 1) = some a := by
        rw [firstGE_succ]
        cases hh : firstGE f t2 gm with
        | some a => exact ⟨a, by simp [hh]⟩
        | none => exact ⟨gm + 1, by simp [hh, le_trans h23 hcle]⟩
      have h25some : ∃ a, firstGE f t25 (gm + 1) = some a := by
        rw [firstGE_succ]
        cases hh : firstGE f t25 gm with
        | some a => exact ⟨a, by simp [hh]⟩
        | none => exact ⟨gm + 1, by simp [hh, le_trans h253 hcle]⟩
      rcases h2some with ⟨a2, ha2⟩
      rcases h25some with ⟨a25, ha25⟩
      have s2 := firstGE_stable ha2 k
      have s25 := firstGE_stable ha25 k
      have s3 := firstGE_stable hopt k
      rw [show gm + (k + 1) = (gm + 1) + k by omega, s2, s25, s3, ha2, ha25]

lemma cumulative_step_enabled {input : BulkDealInput}
    (h : daRevenueShareEnabled input) (m : ℕ) :
    cumulativeDaReceived input (m + 1) =
      cumulativeDaReceived input m +
        baseDaPaymentPerMonth input *
          waterfallRate (cumulativeDaReceived input m)
            (moic2x input) (moic2_5x input) (moic3x input) := by
  rw [cumulativeDaReceived, daPaymentRateAt_of_enabled h]

end BulkAnalyzer

/-- C6 (amended to capital-provider-funded runs): each MOIC milestone
month recorded by the tiered model is the first month (1-indexed) at
which the cumulative capital-provider receipts reach or exceed its
threshold, is NONE exactly when the threshold is never reached within the
term, and whenever all three are defined they are ordered
`moic2xMonth ≤ moic2_5xMonth ≤ moic3xMonth`. -/
theorem claimC6_milestone_months (input : BulkAnalyzer.BulkDealInput)
    (hda : input.fundingSource = BulkAnalyzer.FundingSource.da) :
    (∀ m, (BulkAnalyzer.analyzeBulkDeal input).daWaterfall.moic2xMonth = some m →
        1 ≤ m ∧ m ≤ 12 * input.termYears ∧
        BulkAnalyzer.moic2x input ≤ BulkAnalyzer.cumulativeDaReceived input m ∧
        ∀ j, 1 ≤ j → j < m →
          BulkAnalyzer.cumulativeDaReceived input j < BulkAnalyzer.moic2x input) ∧
    ((BulkAnalyzer.analyzeBulkDeal input).daWaterfall.moic2xMonth = none →
        ∀ j, 1 ≤ j → j ≤ 12 * input.termYears →
          BulkAnalyzer.cumulativeDaReceived input j < BulkAnalyzer.moic2x input) ∧
    (∀ m, (BulkAnalyzer.analyzeBulkDeal input).daWaterfall.moic2_5xMonth = some m →
        1 ≤ m ∧ m ≤ 12 * input.termYears ∧
        BulkAnalyzer.moic2_5x input ≤ BulkAnalyzer.cumulativeDaReceived input m ∧
        ∀ j, 1 ≤ j → j < m →
          BulkAnalyzer.cumulativeDaReceived input j < BulkAnalyzer.moic2_5x input) ∧
    ((BulkAnalyzer.analyzeBulkDeal input).daWaterfall.moic2_5xMonth = none →
        ∀ j, 1 ≤ j → j ≤ 12 * input.termYears →
          BulkAnalyzer.cumulativeDaReceived input j < BulkAnalyzer.moic2_5x input) ∧
    (∀ m, (BulkAnalyzer.analyzeBulkDeal input).daWaterfall.moic3xMonth = some m →
        1 ≤ m ∧ m ≤ 12 * input.termYears ∧
        BulkAnalyzer.moic3x input ≤ BulkAnalyzer.cumulativeDaReceived input m ∧
        ∀ j, 1 ≤ j → j < m →
          BulkAnalyzer.cumulativeDaReceived input j < BulkAnalyzer.moic3x input) ∧
    ((BulkAnalyzer.analyzeBulkDeal input).daWaterfall.moic3xMonth = none →
        ∀ j, 1 ≤ j → j ≤ 12 * input.termYears →
          BulkAnalyzer.cumulativeDaReceived input j < BulkAnalyzer.moic3x input) ∧
    (∀ a b c, (BulkAnalyzer.analyzeBulkDeal input).daWaterfall.moic2xMonth = some a →
        (BulkAnalyzer.analyzeBulkDeal input).daWaterfall.moic2_5xMonth = some b →
        (BulkAnalyzer.analyzeBulkDeal input).daWaterfall.moic3xMonth = some c →
        a ≤ b ∧ b ≤ c) := by
  have henabled : BulkAnalyzer.daRevenueShareEnabled input := hda
  have hproj2 : (BulkAnalyzer.analyzeBulkDeal input).daWaterfall.moic2xMonth =
      (BulkAnalyzer.daWaterfallMilestones input).1 := rfl
  have hproj25 : (BulkAnalyzer.analyzeBulkDeal input).daWaterfall.moic2_5xMonth =
      (BulkAnalyzer.daWaterfallMilestones input).2.1 := rfl
  have hproj3 : (BulkAnalyzer.analyzeBulkDeal input).daWaterfall.moic3xMonth =
      (BulkAnalyzer.daWaterfallMilestones input).2.2 := rfl
  have e2 : BulkAnalyzer.moic2x input = BulkAnalyzer.totalCapex input * 2 := by
    rw [BulkAnalyzer.moic2x, BulkAnalyzer.daInvestment_of_enabled henabled]
  have e25 : BulkAnalyzer.moic2_5x input = BulkAnalyzer.totalCapex input * (5 / 2) := by
    rw [BulkAnalyzer.moic2_5x, BulkAnalyzer.daInvestment_of_enabled henabled]
  have e3 : BulkAnalyzer.moic3x input = BulkAnalyzer.totalCapex input * 3 := by
    rw [BulkAnalyzer.moic3x, BulkAnalyzer.daInvestment_of_enabled henabled]
  rcases le_or_lt 0 (BulkAnalyzer.totalCapex input) with hc | hc
  · have h23 : BulkAnalyzer.moic2x input ≤ BulkAnalyzer.moic3x input := by
      rw [e2, e3]; nlinarith
    have h253 : BulkAnalyzer.moic2_5x input ≤ BulkAnalyzer.moic3x input := by
      rw [e25, e3]; nlinarith
    have h225 : BulkAnalyzer.moic2x input ≤ BulkAnalyzer.moic2_5x input := by
      rw [e2, e25]; nlinarith
    have key := BulkAnalyzer.milestoneScan_eq_firstGE (BulkAnalyzer.baseDaPaymentPerMonth input)
      (BulkAnalyzer.moic2x input) (BulkAnalyzer.moic2_5x input) (BulkAnalyzer.moic3x input)
      (BulkAnalyzer.cumulativeDaReceived input)
      (BulkAnalyzer.cumulative_step_enabled henabled) h23 h253
      (12 * input.termYears) 0 rfl
    rw [Nat.zero_add] at key
    have hmil : BulkAnalyzer.daWaterfallMilestones input =
        (BulkAnalyzer.firstGE (BulkAnalyzer.cumulativeDaReceived input)
            (BulkAnalyzer.moic2x input) (12 * input.termYears),
         BulkAnalyzer.firstGE (BulkAnalyzer.cumulativeDaReceived input)
            (BulkAnalyzer.moic2_5x input) (12 * input.termYears),
         BulkAnalyzer.firstGE (BulkAnalyzer.cumulativeDaReceived input)
            (BulkAnalyzer.moic3x input) (12 * input.termYears)) := by
      rw [BulkAnalyzer.daWaterfallMilestones, if_pos henabled]
      exact key
    refine ⟨?_, ?_, ?_, ?_, ?_, ?_, ?_⟩
    · intro m hm
      rw [hproj2, hmil] at hm
      exact BulkAnalyzer.firstGE_some hm
    · intro hnone
      rw [hproj2, hmil] at hnone
      exact BulkAnalyzer.firstGE_none hnone
    · intro m hm
      rw [hproj25, hmil] at hm
      exact BulkAnalyzer.firstGE_some hm
    · intro hnone
      rw [hproj25, hmil] at hnone
      exact BulkAnalyzer.firstGE_none hnone
    · intro m hm
      rw [hproj3, hmil] at hm
      exact BulkAnalyzer.firstGE_some hm
    · intro hnone
      rw [hproj3, hmil] at hnone
      exact BulkAnalyzer.firstGE_none hnone
    · intro a b c h2 h25 h3
      rw [hproj2, hmil] at h2
      rw [hproj25, hmil] at h25
      rw [hproj3, hmil] at h3
      exact ⟨BulkAnalyzer.firstGE_mono h225 h2 h25, BulkAnalyzer.firstGE_mono h253 h25 h3⟩
  · have hzero := BulkAnalyzer.cumulativeDaReceived_of_neg_capex henabled hc
    rcases Nat.eq_zero_or_pos input.termYears with hT0 | hT1
    · have hmil : BulkAnalyzer.daWaterfallMilestones input = (none, none, none) := by
        rw [BulkAnalyzer.daWaterfallMilestones, if_pos henabled, hT0]
        rfl
      refine ⟨?_, ?_, ?_, ?_, ?_, ?_, ?_⟩
      · intro m hm
        rw [hproj2, hmil] at hm
        exact absurd hm (by simp)
      · intro _ j h1 h2
        rw [hT0] at h2
        omega
      · intro m hm
        rw [hproj25, hmil] at hm
        exact absurd hm (by simp)
      · intro _ j h1 h2
        rw [hT0] at h2
        omega
      · intro m hm
        rw [hproj3, hmil] at hm
        exact absurd hm (by simp)
      · intro _ j h1 h2
        rw [hT0] at h2
        omega
      · intro a b c h2 _ _
        rw [hproj2, hmil] at h2
        exact absurd h2 (by simp)
    · obtain ⟨k, hk⟩ : ∃ k, 12 * input.termYears = k + 1 :=
        ⟨12 * input.termYears - 1, by omega⟩
      have hrate0 : BulkAnalyzer.waterfallRate 0 (BulkAnalyzer.moic2x input)
          (BulkAnalyzer.moic2_5x input) (BulkAnalyzer.moic3x input) = 0 := by
        unfold BulkAnalyzer.waterfallRate
        rw [if_pos (show (0 : ℚ) ≥ BulkAnalyzer.moic3x input by rw [e3]; nlinarith)]
      have hmil : BulkAnalyzer.daWaterfallMilestones input = (some 1, some 1, some 1) := by
        rw [BulkAnalyzer.daWaterfallMilestones, if_pos henabled, hk,
          BulkAnalyzer.milestoneScan_step, hrate0]
        simp only [mul_zero, add_zero]
        rw [if_pos (⟨trivial, show (0 : ℚ) ≥ BulkAnalyzer.moic2x input by rw [e2]; nlinarith⟩ :
            True ∧ (0 : ℚ) ≥ BulkAnalyzer.moic2x input),
          if_pos (⟨trivial, show (0 : ℚ) ≥ BulkAnalyzer.moic2_5x input by rw [e25]; nlinarith⟩ :
            True ∧ (0 : ℚ) ≥ BulkAnalyzer.moic2_5x input),
          if_pos (⟨trivial, show (0 : ℚ) ≥ BulkAnalyzer.moic3x input by rw [e3]; nlinarith⟩ :
            True ∧ (0 : ℚ) ≥ BulkAnalyzer.moic3x input),
          if_pos (by simp)]
      have hcum1 : ∀ t : ℚ, t ≤ 0 → t ≤ BulkAnalyzer.cumulativeDaReceived input 1 := by
        intro t ht
        rw [hzero 1]
        exact ht
      refine ⟨?_, ?_, ?_, ?_, ?_, ?_, ?_⟩
      · intro m hm
        rw [hproj2, hmil] at hm
        have hm1 : m = 1 := by simpa using hm.symm
        subst hm1
        exact ⟨le_refl 1, by omega, hcum1 _ (by rw [e2]; nlinarith),
          fun j hj1 hj2 => absurd hj2 (by omega)⟩
      · intro hnone
        rw [hproj2, hmil] at hnone
        exact absurd hnone (by simp)
      · intro m hm
        rw [hproj25, hmil] at hm
        have hm1 : m = 1 := by simpa using hm.symm
        subst hm1
        exact ⟨le_refl 1, by omega, hcum1 _ (by rw [e25]; nlinarith),
          fun j hj1 hj2 => absurd hj2 (by omega)⟩
      · intro hnone
        rw [hproj25, hmil] at hnone
        exact absurd hnone (by simp)
      · intro m hm
        rw [hproj3, hmil] at hm
        have hm1 : m = 1 := by simpa using hm.symm
        subst hm1
        exact ⟨le_refl 1, by omega, hcum1 _ (by rw [e3]; nlinarith),
          fun j hj1 hj2 => absurd hj2 (by omega)⟩
      · intro hnone
        rw [hproj3, hmil] at hnone
        exact absurd hnone (by simp)
      · intro a b c h2 h25 h3
        rw [hproj2, hmil] at h2
        rw [hproj25, hmil] at h25
        rw [hproj3, hmil] at h3
        have ha : a = 1 := by simpa using h2.symm
        have hb : b = 1 := by simpa using h25.symm
        have hcv : c = 1 := by simpa using h3.symm
        subst ha; subst hb; subst hcv
        exact ⟨le_refl 1, le_refl 1⟩

/-- An owner-funded one-year deal used to refute C6's "every tiered-model
run" scope. -/
def claimC6Owner : BulkAnalyzer.BulkDealInput :=
  ⟨1, BulkAnalyzer.ConstructionType.brownfield, 1, 10, 100, 0, 0, 0, 2, 0, 15, 0, 0,
    BulkAnalyzer.FundingSource.owner, 0⟩

/-- C6 counterexample: in an owner-funded run the milestone thresholds are
`0` (daInvestment is 0) and the cumulative receipts (all 0) reach the 2.0×
threshold already in month 1 of a 12-month term, yet the code records
NONE for the milestone month, contradicting the claim's
"first month at which cumulative receipts reach or exceed its threshold /
NONE if never reached" reading for such runs. -/
theorem claimC6_counterexample :
    (BulkAnalyzer.analyzeBulkDeal claimC6Owner).daWaterfall.moic2xMonth = none ∧
    1 ≤ 12 * claimC6Owner.termYears ∧
    (BulkAnalyzer.analyzeBulkDeal claimC6Owner).daWaterfall.moic2xAmount ≤
      BulkAnalyzer.cumulativeDaReceived claimC6Owner 1 := by
  have hne : ¬BulkAnalyzer.daRevenueShareEnabled claimC6Owner :=
    BulkAnalyzer.not_enabled_of_owner rfl
  refine ⟨?_, by norm_num [claimC6Owner], ?_⟩
  · show (BulkAnalyzer.daWaterfallMilestones claimC6Owner).1 = none
    rw [BulkAnalyzer.daWaterfallMilestones, if_neg hne]
  · show BulkAnalyzer.moic2x claimC6Owner ≤
      BulkAnalyzer.cumulativeDaReceived claimC6Owner 1
    rw [BulkAnalyzer.cumulativeDaReceived_of_base_zero
        (BulkAnalyzer.baseDaPaymentPerMonth_of_not_enabled hne) 1,
      BulkAnalyzer.moic2x, BulkAnalyzer.daInvestment_of_not_enabled hne]
    norm_num

/-- A DA-funded deal with zero units (hence zero capital and zero fee):
every threshold is 0 and is reached in month 1. -/
def claimC6W : BulkAnalyzer.BulkDealInput :=
  ⟨0, BulkAnalyzer.ConstructionType.brownfield, 1, 10, 0, 0, 0, 0, 0, 0, 15, 0, 0,
    BulkAnalyzer.FundingSource.da, 0⟩

lemma claimC6W_milestones :
    BulkAnalyzer.daWaterfallMilestones claimC6W = (some 1, some 1, some 1) := by
  have hen : BulkAnalyzer.daRevenueShareEnabled claimC6W := rfl
  have ht2 : BulkAnalyzer.moic2x claimC6W = 0 := by
    rw [BulkAnalyzer.moic2x, BulkAnalyzer.daInvestment_of_enabled hen]
    norm_num [BulkAnalyzer.totalCapex, claimC6W]
  have ht25 : BulkAnalyzer.moic2_5x claimC6W = 0 := by
    rw [BulkAnalyzer.moic2_5x, BulkAnalyzer.daInvestment_of_enabled hen]
    norm_num [BulkAnalyzer.totalCapex, claimC6W]
  have ht3 : BulkAnalyzer.moic3x claimC6W = 0 := by
    rw [BulkAnalyzer.moic3x, BulkAnalyzer.daInvestment_of_enabled hen]
    norm_num [BulkAnalyzer.totalCapex, claimC6W]
  have hbase : BulkAnalyzer.baseDaPaymentPerMonth claimC6W = 0 := by
    rw [BulkAnalyzer.baseDaPaymentPerMonth_of_enabled hen]
    norm_num [claimC6W]
  have hr : BulkAnalyzer.waterfallRate 0 0 0 0 = 0 := by
    unfold BulkAnalyzer.waterfallRate
    rw [if_pos le_rfl]
  rw [BulkAnalyzer.daWaterfallMilestones, if_pos hen, ht2, ht25, ht3, hbase,
    show 12 * claimC6W.termYears = 11 + 1 from rfl, BulkAnalyzer.milestoneScan_step, hr]
  simp only [mul_zero, add_zero]
  rw [if_pos (⟨trivial, le_rfl⟩ : True ∧ (0 : ℚ) ≥ 0),
    if_pos (by simp)]

/-- C6 witness: at a concrete DA-funded deal all three milestones are
month 1 and the ordering invariant holds, by the amended theorem. -/
theorem claimC6_witness :
    (BulkAnalyzer.analyzeBulkDeal claimC6W).daWaterfall.moic2xMonth = some 1 ∧
    (BulkAnalyzer.analyzeBulkDeal claimC6W).daWaterfall.moic3xMonth = some 1 ∧
    (1 : ℕ) ≤ 1 ∧ (1 : ℕ) ≤ 1 := by
  have h2 : (BulkAnalyzer.analyzeBulkDeal claimC6W).daWaterfall.moic2xMonth = some 1 := by
    show (BulkAnalyzer.daWaterfallMilestones claimC6W).1 = some 1
    rw [claimC6W_milestones]
  have h25 : (BulkAnalyzer.analyzeBulkDeal claimC6W).daWaterfall.moic2_5xMonth = some 1 := by
    show (BulkAnalyzer.daWaterfallMilestones claimC6W).2.1 = some 1
    rw [claimC6W_milestones]
  have h3 : (BulkAnalyzer.analyzeBulkDeal claimC6W).daWaterfall.moic3xMonth = some 1 := by
    show (BulkAnalyzer.daWaterfallMilestones claimC6W).2.2 = some 1
    rw [claimC6W_milestones]
  exact ⟨h2, h3,
    (claimC6_milestone_months claimC6W rfl).2.2.2.2.2.2 1 1 1 h2 h25 h3⟩
